import Mathlib

/-!
# Verification of the Pullpiri state & action reconciliation subsystem

A shallow embedding, in Lean 4, of the parts of the Pullpiri/Piccolo
orchestrator relevant to the frozen claims: the State Machine Engine
(`player/statemanager`), the Action Controller (`player/actioncontroller`),
and the Node Registry (`server/apiserver/cluster`).

Conventions of the embedding:
* machine integers (`i32`, `u32`, `u64`, `i64`) are modelled as `Nat`/`Int`;
  `u32` increments that can overflow are taken `% 2^32`;
* `tokio::time::Instant` and UNIX timestamps are modelled as a `Nat`-valued
  clock passed explicitly (`now`);
* `HashMap<String, V>` is modelled as an association list
  `List (String × V)` with replace-on-insert semantics (`insertKV`);
* the durable etcd KV port (`common::etcd`, not part of the sources) is
  modelled from the spec as a caller-keyed map: `put` stores at exactly the
  given key, `get` of an absent key fails with a "Key not found" error;
* YAML (de)serialization by `serde_yaml` is external and is modelled as the
  identity on the already-structured records.
-/

namespace Pullpiri

/-- Association-list lookup (model of `HashMap::get` / etcd point reads). -/
def lookupKV {α : Type} : List (String × α) → String → Option α
  | [], _ => none
  | (k, v) :: rest, key => if k = key then some v else lookupKV rest key

/-- Association-list insert with replace semantics (model of `HashMap::insert`
and of an etcd `put`): an existing binding of the key is overwritten in place,
otherwise the binding is appended. -/
def insertKV {α : Type} (l : List (String × α)) (key : String) (v : α) :
    List (String × α) :=
  if l.any (fun p => p.1 = key) then
    l.map (fun p => if p.1 = key then (key, v) else p)
  else
    l ++ [(key, v)]

/-- Boolean prefix test on character lists (model of `str::starts_with`). -/
def charsPrefixOf : List Char → List Char → Bool
  | [], _ => true
  | _ :: _, [] => false
  | a :: as, b :: bs => a = b && charsPrefixOf as bs

/-- Does `pat` occur as a contiguous run inside the list? -/
def charsContains (pat : List Char) : List Char → Bool
  | [] => charsPrefixOf pat []
  | c :: rest => charsPrefixOf pat (c :: rest) || charsContains pat rest

/-- `s.contains(pat)` of Rust `str` (substring containment). -/
def containsSubstr (s pat : String) : Bool :=
  charsContains pat.data s.data

/-- `pre.is_prefix_of s` / Rust `s.starts_with(pre)`. -/
def strIsPrefixOf (pre s : String) : Bool :=
  charsPrefixOf pre.data s.data

/-- Rust `str::trim`: strip leading and trailing whitespace. -/
def strTrim (s : String) : String :=
  ⟨((s.data.dropWhile Char.isWhitespace).reverse.dropWhile
      Char.isWhitespace).reverse⟩

/-- Rust `str::to_ascii_uppercase`, character-wise. -/
def strToUpper (s : String) : String := ⟨s.data.map Char.toUpper⟩

/-- Rust `str::replace('-', "_")` with a single-character pattern and a
single-character replacement, character-wise. -/
def replaceDashWithUnderscore (s : String) : String :=
  ⟨s.data.map (fun c => if c = '-' then '_' else c)⟩

/-- Modelled from the spec: the gRPC resource-type enumeration of the
`common::statemanager` proto module (the generated proto code is not among
the sources; §3 of the spec fixes the variant set
Scenario, Package, Model, Volume, Network, Node).  The wire values 1, 2, 3
for Scenario, Package, Model are visible in
`statemanager/src/state_machine/core.rs` (`warm_cache_for_active_resources`). -/
inductive ResourceType where
  | Scenario | Package | Model | Volume | Network | Node
  deriving DecidableEq, Repr

/-- Wire value of a resource type (`rt as i32`). -/
def ResourceType.toNat : ResourceType → Nat
  | .Scenario => 1
  | .Package => 2
  | .Model => 3
  | .Volume => 4
  | .Network => 5
  | .Node => 6

/-- `ResourceType::try_from(i32)` of the prost-generated enum. -/
def ResourceType.tryFrom (n : Nat) : Option ResourceType :=
  match n with
  | 1 => some .Scenario
  | 2 => some .Package
  | 3 => some .Model
  | 4 => some .Volume
  | 5 => some .Network
  | 6 => some .Node
  | _ => none

/-- `{:?}` (Debug) rendering of a resource type, as used by
`StateUtilities::generate_resource_key`. -/
def ResourceType.debugName : ResourceType → String
  | .Scenario => "Scenario"
  | .Package => "Package"
  | .Model => "Model"
  | .Volume => "Volume"
  | .Network => "Network"
  | .Node => "Node"

/-- Modelled from the spec: numeric values of the per-kind state enums of the
`common::statemanager` proto module (§4.1 of the spec fixes the variant sets;
the proto file itself is not among the sources).  `as_str_name` of each value;
`none` for values outside the enum. -/
def stateName (rt : ResourceType) : Nat → Option String :=
  match rt with
  | .Scenario => fun c =>
      match c with
      | 0 => some "SCENARIO_STATE_UNSPECIFIED"
      | 1 => some "SCENARIO_STATE_IDLE"
      | 2 => some "SCENARIO_STATE_WAITING"
      | 3 => some "SCENARIO_STATE_ALLOWED"
      | 4 => some "SCENARIO_STATE_PLAYING"
      | 5 => some "SCENARIO_STATE_DENIED"
      | _ => none
  | .Package => fun c =>
      match c with
      | 0 => some "PACKAGE_STATE_UNSPECIFIED"
      | 1 => some "PACKAGE_STATE_INITIALIZING"
      | 2 => some "PACKAGE_STATE_RUNNING"
      | 3 => some "PACKAGE_STATE_DEGRADED"
      | 4 => some "PACKAGE_STATE_ERROR"
      | 5 => some "PACKAGE_STATE_PAUSED"
      | 6 => some "PACKAGE_STATE_UPDATING"
      | _ => none
  | .Model => fun c =>
      match c with
      | 0 => some "MODEL_STATE_UNSPECIFIED"
      | 1 => some "MODEL_STATE_PENDING"
      | 2 => some "MODEL_STATE_CONTAINER_CREATING"
      | 3 => some "MODEL_STATE_RUNNING"
      | 4 => some "MODEL_STATE_SUCCEEDED"
      | 5 => some "MODEL_STATE_FAILED"
      | 6 => some "MODEL_STATE_CRASH_LOOP_BACK_OFF"
      | 7 => some "MODEL_STATE_UNKNOWN"
      | _ => none
  | _ => fun _ => none

/-- The declared values of each state enum (the domain of `stateName`). -/
def stateCodes (rt : ResourceType) : List Nat :=
  match rt with
  | .Scenario => [0, 1, 2, 3, 4, 5]
  | .Package => [0, 1, 2, 3, 4, 5, 6]
  | .Model => [0, 1, 2, 3, 4, 5, 6, 7]
  | _ => []

/-- `XState::from_str_name` of the prost-generated enums: the unique declared
value whose `as_str_name` is the given string. -/
def stateOfName (rt : ResourceType) (s : String) : Option Nat :=
  (stateCodes rt).find? (fun c => stateName rt c = some s)

/-- Numeric state codes used by the transition tables and the engine
(`XState::Variant as i32` in the sources). -/
def scenarioIdle : Nat := 1
def scenarioWaiting : Nat := 2
def scenarioAllowed : Nat := 3
def scenarioPlaying : Nat := 4
def scenarioDenied : Nat := 5
def packageUnspecified : Nat := 0
def packageInitializing : Nat := 1
def packageRunning : Nat := 2
def packageDegraded : Nat := 3
def packageError : Nat := 4
def packagePaused : Nat := 5
def packageUpdating : Nat := 6
def modelUnspecified : Nat := 0
def modelPending : Nat := 1
def modelContainerCreating : Nat := 2
def modelRunning : Nat := 3
def modelSucceeded : Nat := 4
def modelFailed : Nat := 5
def modelCrashLoopBackOff : Nat := 6
def modelUnknown : Nat := 7

/-- The wire-visible error code enumeration (`ErrorCode` of the
`common::statemanager` proto module; variant set per §6 of the spec). -/
inductive ErrorCode where
  | Success | InvalidRequest | InvalidStateTransition
  | PreconditionFailed | ResourceNotFound | InternalError
  deriving DecidableEq, Repr

/-- The `StateChange` proto message (fields per `manager.rs`/`core.rs` usage
and §3 of the spec).  `resource_type` is the raw `i32` wire value. -/
structure StateChange where
  resourceType : Nat
  resourceName : String
  currentState : String
  targetState : String
  transitionId : String
  source : String
  timestampNs : Nat
  deriving DecidableEq, Repr

/-- Runtime health status (`core/types.rs`, `HealthStatus`); `last_check` is a
`tokio::time::Instant`, modelled as a `Nat` clock value. -/
structure HealthStatus where
  healthy : Bool
  statusMessage : String
  lastCheck : Nat
  consecutiveFailures : Nat
  deriving DecidableEq, Repr

/-- Runtime resource state (`core/types.rs`, `ResourceState`). -/
structure ResourceState where
  resourceType : ResourceType
  resourceName : String
  currentState : Nat
  desiredState : Option Nat
  lastTransitionTime : Nat
  transitionCount : Nat
  metadata : List (String × String)
  healthStatus : HealthStatus
  deriving DecidableEq, Repr

/-- Serializable health status (`core/types.rs`, `SerializableHealthStatus`). -/
structure SerializableHealthStatus where
  healthy : Bool
  statusMessage : String
  lastCheckUnixTimestamp : Nat
  consecutiveFailures : Nat
  deriving DecidableEq, Repr

/-- Serializable resource state persisted to etcd
(`core/types.rs`, `SerializableResourceState`). -/
structure SerializableResourceState where
  resourceType : Nat
  resourceName : String
  currentState : String
  desiredState : Option String
  lastTransitionUnixTimestamp : Nat
  transitionCount : Nat
  metadata : List (String × String)
  healthStatus : SerializableHealthStatus
  deriving DecidableEq, Repr

/-- A row of a transition table (`core/types.rs`, `StateTransition`). -/
structure StateTransition where
  fromState : Nat
  event : String
  toState : Nat
  condition : Option String
  action : String
  deriving DecidableEq, Repr

/-- Result of a transition attempt (`core/types.rs`, `TransitionResult`). -/
structure TransitionResult where
  newState : Nat
  errorCode : ErrorCode
  message : String
  actionsToExecute : List String
  transitionId : String
  errorDetails : String
  success : Bool
  timestampNs : Nat
  deriving DecidableEq, Repr

/-- `TransitionResult::success` (`core/types.rs`). -/
def TransitionResult.mkSuccess (newState : Nat) (transitionId : String)
    (message : Option String) (nowNs : Nat) : TransitionResult :=
  { newState := newState
    errorCode := .Success
    message := message.getD "Transition completed successfully"
    actionsToExecute := []
    transitionId := transitionId
    errorDetails := ""
    success := true
    timestampNs := nowNs }

/-- `TransitionResult::failure` (`core/types.rs`): stays in the current state. -/
def TransitionResult.mkFailure (currentState : Nat) (transitionId : String)
    (errorCode : ErrorCode) (message errorDetails : String) (nowNs : Nat) :
    TransitionResult :=
  { newState := currentState
    errorCode := errorCode
    message := message
    actionsToExecute := []
    transitionId := transitionId
    errorDetails := errorDetails
    success := false
    timestampNs := nowNs }

/-- `TransitionResult::is_success` (`core/types.rs`). -/
def TransitionResult.isSuccess (r : TransitionResult) : Bool :=
  r.success && r.errorCode = .Success

/-- An emitted action command (`core/types.rs`, `ActionCommand`). -/
structure ActionCommand where
  action : String
  resourceKey : String
  resourceType : ResourceType
  transitionId : String
  context : List (String × String)
  deriving DecidableEq, Repr

/-! ## `utils/utility.rs`: StateUtilities -/

/-- `StateUtilities::generate_resource_key`: `format!("{:?}::{}", rt, name)`. -/
def generateResourceKey (rt : ResourceType) (resourceName : String) : String :=
  s!"{rt.debugName}::{resourceName}"

/-- `state.trim().to_ascii_uppercase().replace('-', "_")` of `utility.rs`. -/
def normalizeStateStr (s : String) : String :=
  replaceDashWithUnderscore (strToUpper (strTrim s))

/-- `StateUtilities::state_str_to_enum` (`utility.rs`): converts a raw user
state string (either a full enum name containing `_STATE_`, or a short form
that gets prefixed per kind) to the enum value; unparseable input falls back
to the kind's `Unspecified` value 0. -/
def stateStrToEnum (state : String) (resourceType : Nat) : Nat :=
  let normalized :=
    if containsSubstr state "_STATE_" then state
    else
      match ResourceType.tryFrom resourceType with
      | some .Scenario => "SCENARIO_STATE_" ++ normalizeStateStr state
      | some .Package => "PACKAGE_STATE_" ++ normalizeStateStr state
      | some .Model => "MODEL_STATE_" ++ normalizeStateStr state
      | _ => normalizeStateStr state
  match ResourceType.tryFrom resourceType with
  | some .Scenario => (stateOfName .Scenario normalized).getD 0
  | some .Package => (stateOfName .Package normalized).getD 0
  | some .Model => (stateOfName .Model normalized).getD 0
  | _ => 0

/-- `StateUtilities::enum_str_to_int` (`utility.rs`): converts a stored full
enum name string to its value; unparseable input falls back to 0. -/
def enumStrToInt (state : String) (resourceType : Nat) : Nat :=
  match ResourceType.tryFrom resourceType with
  | some .Scenario => (stateOfName .Scenario state).getD 0
  | some .Package => (stateOfName .Package state).getD 0
  | some .Model => (stateOfName .Model state).getD 0
  | _ => 0

/-- `StateUtilities::state_enum_to_str` (`utility.rs`). -/
def stateEnumToStr (state : Nat) (rt : ResourceType) : String :=
  match rt with
  | .Scenario => (stateName .Scenario state).getD "UNKNOWN"
  | .Package => (stateName .Package state).getD "UNKNOWN"
  | .Model => (stateName .Model state).getD "UNKNOWN"
  | _ => "UNKNOWN"

/-- `StateUtilities::build_action_context` (`utility.rs`). -/
def buildActionContext (c : StateChange) (t : StateTransition) :
    List (String × String) :=
  let rt := (ResourceType.tryFrom c.resourceType).getD .Scenario
  [("from_state", stateEnumToStr t.fromState rt),
   ("to_state", stateEnumToStr t.toState rt),
   ("event", t.event),
   ("resource_name", c.resourceName),
   ("source", c.source),
   ("timestamp_ns", toString c.timestampNs)]

/-! ## `core/types.rs`: conversions between runtime and serializable forms -/

/-- `impl From<HealthStatus> for SerializableHealthStatus`: stamps the check
time with the current UNIX time (`nowUnix`), not the stored `Instant`. -/
def SerializableHealthStatus.ofHealthStatus (h : HealthStatus) (nowUnix : Nat) :
    SerializableHealthStatus :=
  { healthy := h.healthy
    statusMessage := h.statusMessage
    lastCheckUnixTimestamp := nowUnix
    consecutiveFailures := h.consecutiveFailures }

/-- `impl From<SerializableHealthStatus> for HealthStatus`: the `Instant` is
reconstructed as `Instant::now()` (`now`). -/
def HealthStatus.ofSerializable (h : SerializableHealthStatus) (now : Nat) :
    HealthStatus :=
  { healthy := h.healthy
    statusMessage := h.statusMessage
    lastCheck := now
    consecutiveFailures := h.consecutiveFailures }

/-- `impl From<ResourceState> for SerializableResourceState` (`core/types.rs`):
state values are rendered with `as_str_name` (falling back to `"UNKNOWN"`),
and `last_transition_unix_timestamp` is stamped with the current UNIX time. -/
def SerializableResourceState.ofResourceState (s : ResourceState)
    (nowUnix : Nat) : SerializableResourceState :=
  let currentStateStr :=
    match s.resourceType with
    | .Scenario => (stateName .Scenario s.currentState).getD "UNKNOWN"
    | .Package => (stateName .Package s.currentState).getD "UNKNOWN"
    | .Model => (stateName .Model s.currentState).getD "UNKNOWN"
    | _ => "UNKNOWN"
  let desiredStateStr :=
    match s.desiredState, s.resourceType with
    | some d, .Scenario => some ((stateName .Scenario d).getD "UNKNOWN")
    | some d, .Package => some ((stateName .Package d).getD "UNKNOWN")
    | some d, .Model => some ((stateName .Model d).getD "UNKNOWN")
    | _, _ => none
  { resourceType := s.resourceType.toNat
    resourceName := s.resourceName
    currentState := currentStateStr
    desiredState := desiredStateStr
    lastTransitionUnixTimestamp := nowUnix
    transitionCount := s.transitionCount
    metadata := s.metadata
    healthStatus := SerializableHealthStatus.ofHealthStatus s.healthStatus nowUnix }

/-- `impl From<SerializableResourceState> for ResourceState` (`core/types.rs`):
state names are parsed with `from_str_name` (falling back to `Unspecified`),
and the in-memory `Instant` fields are re-anchored at `now`. -/
def ResourceState.ofSerializable (s : SerializableResourceState) (now : Nat) :
    ResourceState :=
  let currentStateInt :=
    match ResourceType.tryFrom s.resourceType with
    | some .Scenario => (stateOfName .Scenario s.currentState).getD 0
    | some .Package => (stateOfName .Package s.currentState).getD 0
    | some .Model => (stateOfName .Model s.currentState).getD 0
    | _ => 0
  let desiredStateInt :=
    match s.desiredState, ResourceType.tryFrom s.resourceType with
    | some d, some .Scenario => stateOfName .Scenario d
    | some d, some .Package => stateOfName .Package d
    | some d, some .Model => stateOfName .Model d
    | _, _ => none
  { resourceType := (ResourceType.tryFrom s.resourceType).getD .Scenario
    resourceName := s.resourceName
    currentState := currentStateInt
    desiredState := desiredStateInt
    lastTransitionTime := now
    transitionCount := s.transitionCount
    metadata := s.metadata
    healthStatus := HealthStatus.ofSerializable s.healthStatus now }

/-! ## `monitoring/validation.rs`: StateValidator -/

/-- `StateValidator::validate_state_change`: returns the first failing check's
error message, `none` when the request is well-formed. -/
def validateStateChange (c : StateChange) : Option String :=
  if strTrim c.resourceName = "" then some "Resource name cannot be empty"
  else if strTrim c.transitionId = "" then some "Transition ID cannot be empty"
  else if c.currentState = c.targetState then
    some "Current and target states cannot be the same"
  else if strTrim c.source = "" then some "Source cannot be empty"
  else none

/-- `StateValidator::evaluate_condition`: the fixed guard truth table;
unknown guards default to `true` (with a logged warning). -/
def evaluateCondition (condition : String) (_c : StateChange) : Bool :=
  match condition with
  | "all_models_normal" => true
  | "critical_models_normal" => true
  | "critical_models_failed" => false
  | "non_critical_model_issues" => true
  | "critical_model_issues" => false
  | "all_models_recovered" => true
  | "critical_models_affected" => false
  | "depends_on_recovery_level" => true
  | "depends_on_previous_state" => true
  | "depends_on_rollback_settings" => true
  | "sufficient_resources" => true
  | "timeout_or_error" => false
  | "all_containers_started" => true
  | "one_time_task" => true
  | "unexpected_termination" => false
  | "consecutive_restart_failures" => false
  | "node_communication_issues" => false
  | "restart_successful" => true
  | "retry_limit_reached" => false
  | "depends_on_actual_state" => true
  | "according_to_restart_policy" => true
  | _ => true

/-! ## `state_machine/events.rs`: EventInference -/

/-- `EventInference::infer_scenario_event`. -/
def inferScenarioEvent (currentState targetState : Nat) : String :=
  if currentState = scenarioIdle ∧ targetState = scenarioWaiting then
    "scenario_activation"
  else if currentState = scenarioWaiting ∧ targetState = scenarioAllowed then
    "condition_met"
  else if currentState = scenarioAllowed ∧ targetState = scenarioPlaying then
    "policy_verification_success"
  else if currentState = scenarioAllowed ∧ targetState = scenarioDenied then
    "policy_verification_failure"
  else s!"transition_{currentState}_{targetState}"

/-- `EventInference::infer_package_event`. -/
def inferPackageEvent (currentState targetState : Nat) : String :=
  if currentState = packageUnspecified ∧ targetState = packageInitializing then
    "launch_request"
  else if currentState = packageInitializing ∧ targetState = packageRunning then
    "initialization_complete"
  else if currentState = packageInitializing ∧ targetState = packageDegraded then
    "partial_initialization_failure"
  else if currentState = packageInitializing ∧ targetState = packageError then
    "critical_initialization_failure"
  else if currentState = packageRunning ∧ targetState = packageDegraded then
    "model_issue_detected"
  else if currentState = packageRunning ∧ targetState = packageError then
    "critical_issue_detected"
  else if currentState = packageRunning ∧ targetState = packagePaused then
    "pause_request"
  else if currentState = packageRunning ∧ targetState = packageUpdating then
    "update_request"
  else if currentState = packageDegraded ∧ targetState = packageRunning then
    "model_recovery"
  else if currentState = packageDegraded ∧ targetState = packageError then
    "additional_model_issues"
  else if currentState = packageDegraded ∧ targetState = packagePaused then
    "pause_request"
  else if currentState = packageError ∧ targetState = packageRunning then
    "recovery_successful"
  else if currentState = packagePaused ∧ targetState = packageRunning then
    "resume_request"
  else if currentState = packageUpdating ∧ targetState = packageRunning then
    "update_successful"
  else if currentState = packageUpdating ∧ targetState = packageError then
    "update_failed"
  else s!"transition_{currentState}_{targetState}"

/-- `EventInference::infer_model_event`. -/
def inferModelEvent (currentState targetState : Nat) : String :=
  if currentState = modelUnspecified ∧ targetState = modelPending then
    "creation_request"
  else if currentState = modelPending ∧ targetState = modelContainerCreating then
    "node_allocation_complete"
  else if currentState = modelPending ∧ targetState = modelFailed then
    "node_allocation_failed"
  else if currentState = modelContainerCreating ∧ targetState = modelRunning then
    "container_creation_complete"
  else if currentState = modelContainerCreating ∧ targetState = modelFailed then
    "container_creation_failed"
  else if currentState = modelRunning ∧ targetState = modelSucceeded then
    "temporary_task_complete"
  else if currentState = modelRunning ∧ targetState = modelFailed then
    "container_termination"
  else if currentState = modelRunning ∧ targetState = modelCrashLoopBackOff then
    "repeated_crash_detection"
  else if currentState = modelRunning ∧ targetState = modelUnknown then
    "monitoring_failure"
  else if currentState = modelCrashLoopBackOff ∧ targetState = modelRunning then
    "backoff_time_elapsed"
  else if currentState = modelCrashLoopBackOff ∧ targetState = modelFailed then
    "maximum_retries_exceeded"
  else if currentState = modelUnknown ∧ targetState = modelRunning then
    "state_check_recovered"
  else if currentState = modelFailed ∧ targetState = modelPending then
    "manual_automatic_recovery"
  else s!"transition_{currentState}_{targetState}"

/-- `EventInference::infer_event_from_states`. -/
def inferEventFromStates (currentState targetState : Nat)
    (rt : ResourceType) : String :=
  match rt with
  | .Scenario => inferScenarioEvent currentState targetState
  | .Package => inferPackageEvent currentState targetState
  | .Model => inferModelEvent currentState targetState
  | _ => s!"transition_{currentState}_{targetState}"

/-! ## `state_machine/transitions.rs`: the static transition tables -/

/-- `ScenarioTransitions::get_transitions`. -/
def scenarioTransitions : List StateTransition :=
  [{ fromState := scenarioIdle, event := "scenario_activation",
     toState := scenarioWaiting, condition := none,
     action := "start_condition_evaluation" },
   { fromState := scenarioWaiting, event := "condition_met",
     toState := scenarioAllowed, condition := none,
     action := "start_policy_verification" },
   { fromState := scenarioAllowed, event := "policy_verification_success",
     toState := scenarioPlaying, condition := none,
     action := "execute_action_on_target_package" },
   { fromState := scenarioAllowed, event := "policy_verification_failure",
     toState := scenarioDenied, condition := none,
     action := "log_denial_generate_alert" }]

/-- `PackageTransitions::get_transitions`. -/
def packageTransitions : List StateTransition :=
  [{ fromState := packageUnspecified, event := "launch_request",
     toState := packageInitializing, condition := none,
     action := "start_model_creation_allocate_resources" },
   { fromState := packageInitializing, event := "initialization_complete",
     toState := packageRunning, condition := some "all_models_normal",
     action := "update_state_announce_availability" },
   { fromState := packageInitializing, event := "partial_initialization_failure",
     toState := packageDegraded, condition := some "critical_models_normal",
     action := "log_warning_activate_partial_functionality" },
   { fromState := packageInitializing, event := "critical_initialization_failure",
     toState := packageError, condition := some "critical_models_failed",
     action := "log_error_attempt_recovery" },
   { fromState := packageRunning, event := "model_issue_detected",
     toState := packageDegraded, condition := some "non_critical_model_issues",
     action := "log_warning_maintain_partial_functionality" },
   { fromState := packageRunning, event := "critical_issue_detected",
     toState := packageError, condition := some "critical_model_issues",
     action := "log_error_attempt_recovery" },
   { fromState := packageRunning, event := "pause_request",
     toState := packagePaused, condition := none,
     action := "pause_models_preserve_state" },
   { fromState := packageDegraded, event := "model_recovery",
     toState := packageRunning, condition := some "all_models_recovered",
     action := "update_state_restore_full_functionality" },
   { fromState := packageDegraded, event := "additional_model_issues",
     toState := packageError, condition := some "critical_models_affected",
     action := "log_error_attempt_recovery" },
   { fromState := packageDegraded, event := "pause_request",
     toState := packagePaused, condition := none,
     action := "pause_models_preserve_state" },
   { fromState := packageError, event := "recovery_successful",
     toState := packageRunning, condition := some "depends_on_recovery_level",
     action := "update_state_announce_functionality_restoration" },
   { fromState := packagePaused, event := "resume_request",
     toState := packageRunning, condition := some "depends_on_previous_state",
     action := "resume_models_restore_state" },
   { fromState := packageRunning, event := "update_request",
     toState := packageUpdating, condition := none,
     action := "start_update_process" },
   { fromState := packageUpdating, event := "update_successful",
     toState := packageRunning, condition := none,
     action := "activate_new_version_update_state" },
   { fromState := packageUpdating, event := "update_failed",
     toState := packageError, condition := some "depends_on_rollback_settings",
     action := "rollback_or_error_handling" }]

/-- `ModelTransitions::get_transitions`. -/
def modelTransitions : List StateTransition :=
  [{ fromState := modelUnspecified, event := "creation_request",
     toState := modelPending, condition := none,
     action := "start_node_selection_and_allocation" },
   { fromState := modelPending, event := "node_allocation_complete",
     toState := modelContainerCreating, condition := some "sufficient_resources",
     action := "pull_container_images_mount_volumes" },
   { fromState := modelPending, event := "node_allocation_failed",
     toState := modelFailed, condition := some "timeout_or_error",
     action := "log_error_retry_or_reschedule" },
   { fromState := modelContainerCreating, event := "container_creation_complete",
     toState := modelRunning, condition := some "all_containers_started",
     action := "update_state_start_readiness_checks" },
   { fromState := modelContainerCreating, event := "container_creation_failed",
     toState := modelFailed, condition := none,
     action := "log_error_retry_or_reschedule" },
   { fromState := modelRunning, event := "temporary_task_complete",
     toState := modelSucceeded, condition := some "one_time_task",
     action := "log_completion_clean_up_resources" },
   { fromState := modelRunning, event := "container_termination",
     toState := modelFailed, condition := some "unexpected_termination",
     action := "log_error_evaluate_automatic_restart" },
   { fromState := modelRunning, event := "repeated_crash_detection",
     toState := modelCrashLoopBackOff,
     condition := some "consecutive_restart_failures",
     action := "set_backoff_timer_collect_logs" },
   { fromState := modelRunning, event := "monitoring_failure",
     toState := modelUnknown, condition := some "node_communication_issues",
     action := "attempt_diagnostics_restore_communication" },
   { fromState := modelCrashLoopBackOff, event := "backoff_time_elapsed",
     toState := modelRunning, condition := some "restart_successful",
     action := "resume_monitoring_reset_counter" },
   { fromState := modelCrashLoopBackOff, event := "maximum_retries_exceeded",
     toState := modelFailed, condition := some "retry_limit_reached",
     action := "log_error_notify_for_manual_intervention" },
   { fromState := modelUnknown, event := "state_check_recovered",
     toState := modelRunning, condition := some "depends_on_actual_state",
     action := "synchronize_state_recover_if_needed" },
   { fromState := modelFailed, event := "manual_automatic_recovery",
     toState := modelPending, condition := some "according_to_restart_policy",
     action := "start_model_recreation" }]

/-- The transition tables indexed by resource type
(`StateMachine::initialize_all_transitions`: only Scenario, Package and Model
have tables; lookups for the other kinds find nothing). -/
def transitionTable (rt : ResourceType) : List StateTransition :=
  match rt with
  | .Scenario => scenarioTransitions
  | .Package => packageTransitions
  | .Model => modelTransitions
  | _ => []

/-- `StateMachine::find_valid_transition` (`core.rs`): first row matching
(from, event, to). -/
def findValidTransition (rt : ResourceType) (fromState : Nat) (event : String)
    (toState : Nat) : Option StateTransition :=
  (transitionTable rt).find? (fun t =>
    t.fromState = fromState ∧ t.event = event ∧ t.toState = toState)

/-! ## `core/config.rs` and `state_machine/backoff.rs`: the backoff gate -/

/-- `BACKOFF_DURATION_SECS` (`core/config.rs`). -/
def BACKOFF_DURATION_SECS : Nat := 30

/-- `MAX_CONSECUTIVE_FAILURES` (`core/config.rs`). -/
def MAX_CONSECUTIVE_FAILURES : Nat := 3

/-- `BackoffManager::check_backoff_period` (`backoff.rs`): when the current
state is the Model crash-loop-backoff value and a timer exists, reject with
`PreconditionFailed` while `30s − elapsed` has not reached zero (subtraction
saturating, as in `Duration::saturating_sub`). -/
def checkBackoffPeriod (backoffTimers : List (String × Nat))
    (resourceKey : String) (currentState : Nat) (now : Nat) :
    Option (ErrorCode × String) :=
  if currentState = modelCrashLoopBackOff then
    match lookupKV backoffTimers resourceKey with
    | some backoffTime =>
        let remaining := BACKOFF_DURATION_SECS - (now - backoffTime)
        if remaining ≠ 0 then
          some (.PreconditionFailed, "Resource is in backoff period")
        else none
    | none => none
  else none

/-- `BackoffManager::set_backoff_timer` (`backoff.rs`): records `now` exactly
when the destination state is the Model crash-loop-backoff value; existing
entries are never removed. -/
def setBackoffTimer (backoffTimers : List (String × Nat))
    (resourceKey : String) (toState : Nat) (now : Nat) :
    List (String × Nat) :=
  if toState = modelCrashLoopBackOff then
    insertKV backoffTimers resourceKey now
  else backoffTimers

/-! ## `monitoring/health.rs`: HealthManager -/

/-- The fresh status inserted by `or_insert_with` and by
`initialize_health_tracking` (`health.rs`). -/
def freshHealthStatus (now : Nat) : HealthStatus :=
  { healthy := true
    statusMessage := "Healthy"
    lastCheck := now
    consecutiveFailures := 0 }

/-- The per-entry effect of `HealthManager::update_health_status`
(`health.rs`): success resets the failure counter and restores `healthy`;
failure increments it and flips `healthy` to `false` once it reaches
`MAX_CONSECUTIVE_FAILURES`. -/
def updateHealth (h : HealthStatus) (r : TransitionResult) (now : Nat) :
    HealthStatus :=
  if r.isSuccess then
    { healthy := true
      statusMessage := "Healthy"
      lastCheck := now
      consecutiveFailures := 0 }
  else
    let failures := h.consecutiveFailures + 1
    { healthy := if failures ≥ MAX_CONSECUTIVE_FAILURES then false else h.healthy
      statusMessage := r.message
      lastCheck := now
      consecutiveFailures := failures }

/-- `HealthManager::update_health_status` on the whole table: the entry is
created fresh if absent (`or_insert_with`), then updated. -/
def updateHealthStatus (table : List (String × HealthStatus))
    (resourceKey : String) (r : TransitionResult) (now : Nat) :
    List (String × HealthStatus) :=
  let h0 := (lookupKV table resourceKey).getD (freshHealthStatus now)
  insertKV table resourceKey (updateHealth h0 r now)

/-- `HealthManager::initialize_health_tracking` (`health.rs`). -/
def initializeHealthTracking (table : List (String × HealthStatus))
    (resourceKey : String) (now : Nat) : List (String × HealthStatus) :=
  insertKV table resourceKey (freshHealthStatus now)

/-! ## `storage/etcd_state.rs` and `state_machine/persistence.rs` -/

/-- The key prefix under which `get_all_resource_states` (`etcd_state.rs`,
used by `StatePersistence::load_all_states` at startup) enumerates persisted
resource states. -/
def stateLoadPrefix : String := "state/"

/-- The durable KV store holding serialized resource states.  `set_current_state`
serializes with `serde_yaml` and `put`s at exactly the caller's key;
the store is modelled as a key-to-record map (serialization is the identity
on the record). -/
abbrev StateKV : Type := List (String × SerializableResourceState)

/-- `etcd_state::set_current_state`: `put` of the serialized record at the
given resource key (the Durable KV port stores at exactly the caller's key). -/
def setCurrentState (kv : StateKV) (resourceKey : String)
    (state : SerializableResourceState) : StateKV :=
  insertKV kv resourceKey state

/-- `etcd_state::get_current_state`: point read of the resource key
("Key not found" yields `None`). -/
def getCurrentState (kv : StateKV) (resourceKey : String) :
    Option SerializableResourceState :=
  lookupKV kv resourceKey

/-- `StatePersistence::get_current_state_from_storage` (`persistence.rs`):
the stored state's name decoded with `enum_str_to_int`, or the caller's
`current_state` string decoded with `state_str_to_enum` when the key is
absent.  (The etcd-error branch of the source returns `InternalError`
without mutating anything; the KV model is total, so it does not arise.) -/
def getCurrentStateFromStorage (kv : StateKV) (resourceKey : String)
    (fallbackState : String) (resourceType : Nat) : Nat :=
  match getCurrentState kv resourceKey with
  | some s => enumStrToInt s.currentState resourceType
  | none => stateStrToEnum fallbackState resourceType

/-- `StatePersistence::build_updated_state` (`persistence.rs`). -/
def buildUpdatedState (existing : Option ResourceState) (c : StateChange)
    (newState : Nat) (rt : ResourceType) (nowUnix : Nat) :
    SerializableResourceState :=
  match existing with
  | some current =>
      let serializable := SerializableResourceState.ofResourceState current nowUnix
      { serializable with
        currentState := stateEnumToStr newState rt
        desiredState :=
          some (stateEnumToStr (stateStrToEnum c.targetState c.resourceType) rt)
        lastTransitionUnixTimestamp := nowUnix
        transitionCount := (serializable.transitionCount + 1) % 2 ^ 32 }
  | none =>
      let desiredStateEnum := stateStrToEnum c.targetState c.resourceType
      { resourceType := rt.toNat
        resourceName := c.resourceName
        currentState := stateEnumToStr newState rt
        desiredState := some (stateEnumToStr desiredStateEnum rt)
        lastTransitionUnixTimestamp := nowUnix
        transitionCount := 1
        metadata := []
        healthStatus :=
          { healthy := true
            statusMessage := "Healthy"
            lastCheckUnixTimestamp := nowUnix
            consecutiveFailures := 0 } }

/-- `StatePersistence::update_resource_state` (`persistence.rs`): builds the
next serialized record, persists it to the KV store FIRST (write-through
durability), then upserts the in-memory cache with its runtime form. -/
def updateResourceState (resourceStates : List (String × ResourceState))
    (kv : StateKV) (resourceKey : String) (c : StateChange) (newState : Nat)
    (rt : ResourceType) (now : Nat) :
    List (String × ResourceState) × StateKV :=
  let existing := lookupKV resourceStates resourceKey
  let updated := buildUpdatedState existing c newState rt now
  let kv1 := setCurrentState kv resourceKey updated
  let runtimeState := ResourceState.ofSerializable updated now
  (insertKV resourceStates resourceKey runtimeState, kv1)

/-! ## `state_machine/core.rs`: the engine pipeline -/

/-- The mutable state of `StateMachine` (`core.rs`): the in-memory resource
cache, the backoff-timer table and the health table.  The transition tables
are process-wide constants (`transitionTable`); the action sender is modelled
by returning the emitted commands. -/
structure Engine where
  resourceStates : List (String × ResourceState)
  backoffTimers : List (String × Nat)
  healthStatuses : List (String × HealthStatus)
  deriving DecidableEq, Repr

/-- Everything produced by one `process_state_change` call: the engine state
and KV store afterwards, the returned `TransitionResult`, and the action
commands queued on the action channel. -/
structure StepResult where
  engine : Engine
  kv : StateKV
  result : TransitionResult
  actions : List ActionCommand
  deriving DecidableEq, Repr

/-- The success branch of `StateMachine::process_state_change` (`core.rs`)
once a valid transition row with a satisfied condition has been found:
update the state (KV first, then cache), initialize health tracking if
absent, queue the action command, set the backoff timer, build the success
result, and finally record it with the health manager. -/
def executeTransition (e : Engine) (kv : StateKV) (now : Nat) (c : StateChange)
    (rt : ResourceType) (resourceKey : String) (t : StateTransition) :
    StepResult :=
  let (cache1, kv1) :=
    updateResourceState e.resourceStates kv resourceKey c t.toState rt now
  let health1 :=
    if (lookupKV e.healthStatuses resourceKey).isSome then e.healthStatuses
    else initializeHealthTracking e.healthStatuses resourceKey now
  let actionCommand : ActionCommand :=
    { action := t.action
      resourceKey := resourceKey
      resourceType := rt
      transitionId := c.transitionId
      context := buildActionContext c t }
  let timers1 := setBackoffTimer e.backoffTimers resourceKey t.toState now
  let transitionedStateStr := stateEnumToStr t.toState rt
  let result := TransitionResult.mkSuccess t.toState c.transitionId
    (some s!"State transition completed successfully to {transitionedStateStr}")
    now
  let health2 := updateHealthStatus health1 resourceKey result now
  { engine :=
      { resourceStates := cache1, backoffTimers := timers1,
        healthStatuses := health2 }
    kv := kv1
    result := result
    actions := [actionCommand] }

/-- `StateMachine::process_state_change` (`core.rs`): validation, resource
type resolution, current-state retrieval from storage, the backoff gate,
event inference, transition lookup, condition evaluation, and either the
committed transition or a typed failure that mutates nothing (the
invalid-transition failure additionally updates the health table). -/
def processStateChange (e : Engine) (kv : StateKV) (now : Nat)
    (c : StateChange) : StepResult :=
  match validateStateChange c with
  | some validationError =>
      { engine := e, kv := kv,
        result := TransitionResult.mkFailure
          (stateStrToEnum c.currentState c.resourceType) c.transitionId
          .InvalidRequest
          s!"Invalid state change request: {validationError}"
          validationError now
        actions := [] }
  | none =>
  match ResourceType.tryFrom c.resourceType with
  | none =>
      { engine := e, kv := kv,
        result := TransitionResult.mkFailure
          (stateStrToEnum c.currentState c.resourceType) c.transitionId
          .InvalidStateTransition
          s!"Invalid resource type: {c.resourceType}"
          s!"Unsupported resource type ID: {c.resourceType}" now
        actions := [] }
  | some rt =>
  let resourceKey := generateResourceKey rt c.resourceName
  let currentState :=
    getCurrentStateFromStorage kv resourceKey c.currentState c.resourceType
  match checkBackoffPeriod e.backoffTimers resourceKey currentState now with
  | some (errorCode, message) =>
      { engine := e, kv := kv,
        result := TransitionResult.mkFailure currentState c.transitionId
          errorCode message "Backoff timer has not elapsed yet" now
        actions := [] }
  | none =>
  let targetStateInt := stateStrToEnum c.targetState c.resourceType
  let transitionEvent := inferEventFromStates currentState targetStateInt rt
  match findValidTransition rt currentState transitionEvent targetStateInt with
  | some t =>
      if t.condition.isSome ∧
          ¬ evaluateCondition (t.condition.getD "") c then
        let cond := t.condition.getD ""
        { engine := e, kv := kv,
          result := TransitionResult.mkFailure currentState c.transitionId
            .PreconditionFailed
            s!"Transition condition not met: {cond}"
            "Transition condition failed" now
          actions := [] }
      else
        executeTransition e kv now c rt resourceKey t
  | none =>
      let currentStateStr := stateEnumToStr currentState rt
      let targetStateStr := stateEnumToStr targetStateInt rt
      let result := TransitionResult.mkFailure currentState c.transitionId
        .InvalidStateTransition
        s!"No valid transition from {currentStateStr} to {targetStateStr}"
        s!"Invalid state transition attempted: {currentStateStr} -> {targetStateStr}"
        now
      { engine :=
          { e with healthStatuses :=
              updateHealthStatus e.healthStatuses resourceKey result now }
        kv := kv
        result := result
        actions := [] }

/-! ## `statemanager/src/manager.rs`: the State Manager Service -/

/-- The externally observable effects of one
`StateManagerManager::process_state_change` call (`manager.rs`):
which resource type it resolved, which requests it handed to the
State Machine Engine, and which actions it forwarded to the
Action Controller. -/
structure ManagerEffects where
  parsedResourceType : Option ResourceType
  engineInvocations : List StateChange
  forwardedActions : List String
  deriving DecidableEq, Repr

/-- `StateManagerManager::process_state_change` (`manager.rs`, lines
137–226): parses `resource_type` (returning early when it is invalid) and
prints the message fields; the body then consists of `TODO` comments and
ends with "State change processing completed (implementation pending)".
It invokes no engine processing and forwards nothing — the `state_machine`
field is only ever locked inside `initialize`. -/
def managerProcessStateChange (c : StateChange) : ManagerEffects :=
  match ResourceType.tryFrom c.resourceType with
  | none =>
      { parsedResourceType := none, engineInvocations := [],
        forwardedActions := [] }
  | some rt =>
      { parsedResourceType := some rt, engineInvocations := [],
        forwardedActions := [] }

/-! ## `actioncontroller/src/manager.rs`: the Action Controller -/

/-- Modelled from the spec: the Scenario artifact (§3; the
`common::spec::artifact` Scenario definition and its `get_actions` /
`get_targets` accessors are not among the sources). -/
structure ScenarioArtifact where
  name : String
  condition : Option String
  action : String
  target : String
  deriving DecidableEq, Repr

/-- A Model reference inside a Package (`common/src/spec/package/mod.rs`,
`Model { name, node, resources }`). -/
structure PackageModel where
  name : String
  node : String
  volume : Option String
  network : Option String
  deriving DecidableEq, Repr

/-- The Package artifact (`common/src/spec/package/mod.rs`). -/
structure PackageArtifact where
  name : String
  models : List PackageModel
  deriving DecidableEq, Repr

/-- A value stored in the artifact keyspace of etcd; `serde_yaml`
deserialization into `Scenario` / `Package` is modelled as a checked
projection. -/
inductive ArtifactVal where
  | scenario (s : ScenarioArtifact)
  | package (p : PackageArtifact)
  deriving DecidableEq, Repr

/-- The artifact keyspace of the Durable KV port. -/
abbrev ArtifactKV : Type := List (String × ArtifactVal)

/-- Modelled from the spec: `common::etcd::get` (the Durable KV port; the
module is not among the sources).  Point read at exactly the given key; an
absent key fails with a "Key not found" error (the error text checked for by
`etcd_state.rs`). -/
def etcdGet (kv : ArtifactKV) (key : String) : Except String ArtifactVal :=
  match lookupKV kv key with
  | some v => .ok v
  | none => .error "Key not found"

/-- `serde_yaml::from_str::<Scenario>` on a stored value. -/
def parseScenario : ArtifactVal → Except String ScenarioArtifact
  | .scenario s => .ok s
  | _ => .error "invalid type: expected Scenario"

/-- `serde_yaml::from_str::<Package>` on a stored value. -/
def parsePackage : ArtifactVal → Except String PackageArtifact
  | .package p => .ok p
  | _ => .error "invalid type: expected Package"

/-- A concrete runtime operation dispatched by the Action Controller:
Bluechi unit commands (`runtime/bluechi`), and the systemd-unit symlink
filesystem operations of `make_symlink_and_reload` /
`delete_symlink_and_reload`. -/
inductive RuntimeCmd where
  | unitStart (unit node : String)
  | unitStop (unit node : String)
  | controllerReloadAllNodes (unit node : String)
  | createSymlink (link original : String)
  | removeSymlink (path : String)
  deriving DecidableEq, Repr

/-- `SYSTEMD_PATH` (`actioncontroller/src/manager.rs`). -/
def SYSTEMD_PATH : String := "/etc/containers/systemd/"

/-- `ActionControllerManager` (`manager.rs`): the static node classification
(host + guest lists from `common::setting`), plus the host name and YAML
storage directory the symlink protocol reads from the settings. -/
structure ActionControllerManager where
  bluechiNodes : List String
  nodeagentNodes : List String
  hostName : String
  yamlStorage : String
  deriving DecidableEq, Repr

/-- `ActionControllerManager::start_workload`: Bluechi nodes get `UnitStart`,
the node-agent runtime path is a forward-compatible no-op stub, anything
else is an error. -/
def startWorkload (modelName nodeName nodeType : String) :
    Except String (List RuntimeCmd) :=
  match nodeType with
  | "bluechi" => .ok [.unitStart modelName nodeName]
  | "nodeagent" => .ok []
  | _ => .error
      s!"Unsupported node type '{nodeType}' for workload '{modelName}' on node '{nodeName}'"

/-- `ActionControllerManager::stop_workload`. -/
def stopWorkload (modelName nodeName nodeType : String) :
    Except String (List RuntimeCmd) :=
  match nodeType with
  | "bluechi" => .ok [.unitStop modelName nodeName]
  | "nodeagent" => .ok []
  | _ => .error
      s!"Unsupported node type '{nodeType}' for workload '{modelName}' on node '{nodeName}'"

/-- `ActionControllerManager::reload_all_node`. -/
def reloadAllNode (modelName modelNode : String) : List RuntimeCmd :=
  [.controllerReloadAllNodes modelName modelNode]

/-- `ActionControllerManager::make_symlink_and_reload`: creates the symlink
only on the host node, then requests a federation-wide reload. -/
def makeSymlinkAndReload (mgr : ActionControllerManager)
    (nodeName modelName targetName : String) : List RuntimeCmd :=
  let original := s!"{mgr.yamlStorage}/{targetName}.kube"
  let link := s!"{SYSTEMD_PATH}{modelName}.kube"
  (if nodeName = mgr.hostName then [RuntimeCmd.createSymlink link original]
   else []) ++ reloadAllNode modelName nodeName

/-- `ActionControllerManager::delete_symlink_and_reload`: best-effort removal
of the symlink, then a federation-wide reload. -/
def deleteSymlinkAndReload (modelName nodeName : String) : List RuntimeCmd :=
  [RuntimeCmd.removeSymlink s!"{SYSTEMD_PATH}{modelName}.kube"] ++
    reloadAllNode modelName nodeName

/-- The per-Model body of the `trigger_manager_action` loop (`manager.rs`):
classify the node, `continue` (skip, no command, no error) when it is in
neither list, then dispatch according to the scenario action; unknown
actions are a no-op. -/
def triggerPerModel (mgr : ActionControllerManager) (action targetName : String)
    (m : PackageModel) : Except String (List RuntimeCmd) :=
  let modelName := m.name ++ ".service"
  let modelNode := m.node
  if mgr.bluechiNodes.contains modelNode ∨
      mgr.nodeagentNodes.contains modelNode then
    let nodeType :=
      if mgr.bluechiNodes.contains modelNode then "bluechi" else "nodeagent"
    match action with
    | "launch" => startWorkload modelName modelNode nodeType
    | "terminate" => stopWorkload modelName modelNode nodeType
    | "update" | "rollback" =>
        match stopWorkload modelName modelNode nodeType with
        | .error e => .error e
        | .ok stopCmds =>
            match startWorkload modelName modelNode nodeType with
            | .error e => .error e
            | .ok startCmds =>
                .ok (stopCmds ++ deleteSymlinkAndReload m.name modelNode ++
                  makeSymlinkAndReload mgr modelNode m.name targetName ++
                  startCmds)
    | _ => .ok []
  else .ok []

/-- Sequence the per-Model bodies in order, aborting on the first error
(the `?` operator inside the `for` loop). -/
def runPerModels (f : PackageModel → Except String (List RuntimeCmd)) :
    List PackageModel → Except String (List RuntimeCmd)
  | [] => .ok []
  | m :: rest =>
      match f m with
      | .error e => .error e
      | .ok cmds =>
          match runPerModels f rest with
          | .error e => .error e
          | .ok restCmds => .ok (cmds ++ restCmds)

/-- `ActionControllerManager::trigger_manager_action` (`manager.rs`):
rejects empty (or whitespace-only) scenario names before touching the KV
store; reads `Scenario/{name}` (wrapping a failed read as
"Scenario '{name}' not found: ..."), reads `Package/{target}`, and runs the
per-Model dispatch loop. -/
def triggerManagerAction (mgr : ActionControllerManager) (kv : ArtifactKV)
    (scenarioName : String) : Except String (List RuntimeCmd) :=
  if strTrim scenarioName = "" then
    .error "Invalid scenario name: cannot be empty"
  else
    match etcdGet kv ("Scenario/" ++ scenarioName) with
    | .error e => .error s!"Scenario '{scenarioName}' not found: {e}"
    | .ok scenarioVal =>
        match parseScenario scenarioVal with
        | .error e => .error e
        | .ok scenario =>
            match etcdGet kv ("Package/" ++ scenario.target) with
            | .error e => .error e
            | .ok packageVal =>
                match parsePackage packageVal with
                | .error e => .error e
                | .ok pkg =>
                    runPerModels
                      (triggerPerModel mgr scenario.action scenario.target)
                      pkg.models

/-- Modelled from the spec: the `common::actioncontroller::Status` proto
enumeration (the generated proto code is not among the sources; §4.2 of the
spec names the sentinels None, Failed, Unknown and the dispatch state
Running; Initializing and Succeeded stand for the remaining workload
lifecycle states, which the reconcile logic treats uniformly). -/
inductive Status where
  | none | failed | unknown | initializing | running | succeeded
  deriving DecidableEq, Repr

/-- `{:?}` (Debug) rendering of a status. -/
def Status.debugName : Status → String
  | .none => "None"
  | .failed => "Failed"
  | .unknown => "Unknown"
  | .initializing => "Initializing"
  | .running => "Running"
  | .succeeded => "Succeeded"

/-- The per-Model body of the `reconcile_do` loop: same node classification
and skip-on-unknown as the trigger loop; only `desired == Running` starts
the workload. -/
def reconcilePerModel (mgr : ActionControllerManager) (desired : Status)
    (m : PackageModel) : Except String (List RuntimeCmd) :=
  let modelName := m.name ++ ".service"
  let modelNode := m.node
  if mgr.bluechiNodes.contains modelNode ∨
      mgr.nodeagentNodes.contains modelNode then
    let nodeType :=
      if mgr.bluechiNodes.contains modelNode then "bluechi" else "nodeagent"
    if desired = Status.running then startWorkload modelName modelNode nodeType
    else .ok []
  else .ok []

/-- `ActionControllerManager::reconcile_do` (`manager.rs`): no-op when the
states agree, error on sentinel states, then reads `scenario/{name}` and
`package/{target}` (lower-case keys) and starts the Models whose desired
state is Running. -/
def reconcileDo (mgr : ActionControllerManager) (kv : ArtifactKV)
    (scenarioName : String) (current desired : Status) :
    Except String (List RuntimeCmd) :=
  if current = desired then .ok []
  else if current = .none ∨ current = .failed ∨ current = .unknown then
    .error
      s!"Invalid current status: {current.debugName}. Cannot reconcile from this state"
  else if desired = .none ∨ desired = .failed ∨ desired = .unknown then
    .error
      s!"Invalid desired status: {desired.debugName}. Cannot set this as target state"
  else
    match etcdGet kv ("scenario/" ++ scenarioName) with
    | .error e => .error e
    | .ok scenarioVal =>
        match parseScenario scenarioVal with
        | .error e => .error e
        | .ok scenario =>
            match etcdGet kv ("package/" ++ scenario.target) with
            | .error e => .error e
            | .ok packageVal =>
                match parsePackage packageVal with
                | .error e => .error e
                | .ok pkg =>
                    runPerModels (reconcilePerModel mgr desired) pkg.models

/-! ## `apiserver/src/cluster/registry.rs`: the Node Registry -/

/-- Node role (`common/src/spec/artifact/node.rs`, `NodeRole`). -/
inductive NodeRole where
  | Master | Sub
  deriving DecidableEq, Repr

/-- The node lifecycle status enumeration used by the registry
(`NodeStatus` in `cluster/registry.rs`, `route/cluster.rs` and
`grpc/server.rs`; its defining module is re-exported as
`NodeLifecycleStatus` and is not among the sources — the variant set
Online, Offline, Initializing, Error, Maintenance is taken from those
call sites and §3 of the spec). -/
inductive NodeStatus where
  | Online | Offline | Initializing | Error | Maintenance
  deriving DecidableEq, Repr

/-- Node resource information (`common/src/spec/artifact/node.rs`,
`NodeResources`; the `f64` usage gauges are carried as `Float` payload). -/
structure NodeResources where
  cpuCores : Nat
  memoryMb : Nat
  diskGb : Nat
  cpuUsage : Float
  memoryUsage : Float
  deriving Repr

/-- Node record (`common/src/spec/artifact/node.rs`, `NodeInfo`, with the
lifecycle `status` used by the registry).  Timestamps are chrono UNIX
seconds (`i64`, modelled as `Int`). -/
structure NodeInfo where
  nodeId : String
  nodeName : String
  ipAddress : String
  role : NodeRole
  status : NodeStatus
  resources : NodeResources
  labels : List (String × String)
  createdAt : Int
  lastHeartbeat : Int
  deriving Repr

/-- `NodeInfo::is_online`: the node is in the online lifecycle state. -/
def NodeInfo.isOnline (n : NodeInfo) : Bool :=
  n.status = NodeStatus.Online

/-- `HEARTBEAT_TIMEOUT_SECONDS` (`registry.rs`). -/
def HEARTBEAT_TIMEOUT_SECONDS : Int := 90

/-- The node keyspace `/piccolo/cluster/nodes/{node_id}`, modelled as a map
keyed by node id. -/
abbrev NodeStore : Type := List (String × NodeInfo)

/-- `NodeRegistry::update_node_status` with `metrics = None` (`registry.rs`):
read-modify-write of the node record — sets the status, refreshes
`last_heartbeat` to now (`update_heartbeat`), and writes the record back;
fails when the node record is absent. -/
def updateNodeStatus (store : NodeStore) (nodeId : String)
    (status : NodeStatus) (now : Int) : Option NodeStore :=
  match lookupKV store nodeId with
  | some n =>
      some (insertKV store nodeId { n with status := status, lastHeartbeat := now })
  | none => none

/-- The loop body of `NodeRegistry::check_stale_nodes` over the snapshot
returned by `get_all_nodes`: a node whose heartbeat age exceeds the timeout
and which is online is marked Offline (via `update_node_status`) and its id
is collected; a failing update aborts the sweep (`?`). -/
def sweepGo (now : Int) : List NodeInfo → NodeStore → List String →
    Option (NodeStore × List String)
  | [], store, acc => some (store, acc.reverse)
  | n :: rest, store, acc =>
      if now - n.lastHeartbeat > HEARTBEAT_TIMEOUT_SECONDS ∧ n.isOnline then
        match updateNodeStatus store n.nodeId .Offline now with
        | some store1 => sweepGo now rest store1 (n.nodeId :: acc)
        | none => none
      else sweepGo now rest store acc

/-- `NodeRegistry::check_stale_nodes` (`registry.rs`): snapshot all nodes,
mark the stale online ones Offline, and return the swept node ids. -/
def checkStaleNodes (store : NodeStore) (now : Int) :
    Option (NodeStore × List String) :=
  sweepGo now (store.map (fun p => p.2)) store []

/-! ## Shared helper lemmas about the association-list maps -/

theorem anyKey_eq_isSome {α : Type} (l : List (String × α)) (k : String) :
    (l.any (fun p => p.1 = k)) = (lookupKV l k).isSome := by
  induction l with
  | nil => simp [lookupKV]
  | cons p rest ih =>
      obtain ⟨a, b⟩ := p
      by_cases h : a = k
      · simp [lookupKV, h]
      · simp [lookupKV, h, ih]

theorem lookupKV_map_replace_self {α : Type} (l : List (String × α))
    (k : String) (v : α) (h : (lookupKV l k).isSome = true) :
    lookupKV (l.map (fun p => if p.1 = k then (k, v) else p)) k = some v := by
  induction l with
  | nil => simp [lookupKV] at h
  | cons p rest ih =>
      obtain ⟨a, b⟩ := p
      simp only [List.map_cons]
      by_cases ha : a = k
      · rw [if_pos (show ((a, b) : String × α).1 = k from ha)]
        simp [lookupKV]
      · rw [if_neg (show ¬((a, b) : String × α).1 = k from ha)]
        simp only [lookupKV, ha, if_false] at h ⊢
        exact ih h

theorem lookupKV_map_replace_other {α : Type} (l : List (String × α))
    (k k' : String) (v : α) (hne : k' ≠ k) :
    lookupKV (l.map (fun p => if p.1 = k then (k, v) else p)) k' =
      lookupKV l k' := by
  induction l with
  | nil => simp [lookupKV]
  | cons p rest ih =>
      obtain ⟨a, b⟩ := p
      simp only [List.map_cons]
      by_cases ha : a = k
      · rw [if_pos (show ((a, b) : String × α).1 = k from ha)]
        have h1 : ¬(k = k') := Ne.symm hne
        have h2 : ¬(a = k') := by rw [ha]; exact h1
        simp only [lookupKV, h1, h2, if_false]
        exact ih
      · rw [if_neg (show ¬((a, b) : String × α).1 = k from ha)]
        by_cases hak : a = k'
        · simp [lookupKV, hak]
        · simp only [lookupKV, hak, if_false]
          exact ih

theorem lookupKV_append_single_self {α : Type} (l : List (String × α))
    (k : String) (v : α) (h : (lookupKV l k).isSome = false) :
    lookupKV (l ++ [(k, v)]) k = some v := by
  induction l with
  | nil => simp [lookupKV]
  | cons p rest ih =>
      obtain ⟨a, b⟩ := p
      by_cases ha : a = k
      · simp [lookupKV, ha] at h
      · simp only [List.cons_append, lookupKV, ha, if_false] at h ⊢
        exact ih h

theorem lookupKV_append_single_other {α : Type} (l : List (String × α))
    (k k' : String) (v : α) (hne : k' ≠ k) :
    lookupKV (l ++ [(k, v)]) k' = lookupKV l k' := by
  induction l with
  | nil => simp [lookupKV, Ne.symm hne]
  | cons p rest ih =>
      obtain ⟨a, b⟩ := p
      by_cases ha : a = k'
      · simp [lookupKV, ha]
      · simp only [List.cons_append, lookupKV, ha, if_false]
        exact ih

theorem lookupKV_insertKV_self {α : Type} (l : List (String × α)) (k : String)
    (v : α) : lookupKV (insertKV l k v) k = some v := by
  unfold insertKV
  by_cases h : (lookupKV l k).isSome = true
  · rw [if_pos (by rw [anyKey_eq_isSome]; exact h)]
    exact lookupKV_map_replace_self l k v h
  · rw [if_neg (by rw [anyKey_eq_isSome]; simpa using h)]
    exact lookupKV_append_single_self l k v (by simpa using h)

theorem lookupKV_insertKV_other {α : Type} (l : List (String × α))
    (k k' : String) (v : α) (hne : k' ≠ k) :
    lookupKV (insertKV l k v) k' = lookupKV l k' := by
  unfold insertKV
  by_cases h : l.any (fun p => p.1 = k)
  · rw [if_pos h]; exact lookupKV_map_replace_other l k k' v hne
  · rw [if_neg h]; exact lookupKV_append_single_other l k k' v hne

/-! ## Test fixtures -/

/-- An engine with empty cache, backoff-timer and health tables. -/
def emptyEngine : Engine :=
  { resourceStates := [], backoffTimers := [], healthStatuses := [] }

/-- A well-formed StateChange asking Model `x`: Pending → ContainerCreating
(a legal transition with a satisfied guard). -/
def changeModelPendingCreate : StateChange :=
  { resourceType := 3, resourceName := "x",
    currentState := "MODEL_STATE_PENDING",
    targetState := "MODEL_STATE_CONTAINER_CREATING",
    transitionId := "t1", source := "apiserver", timestampNs := 0 }

/-! ## Claim theorems -/

/-- C1: on a validated transition the engine persists to the KV store before
updating the cache, but the key it writes is `{Kind}::{name}` with no
`state/` prefix: a successful Model transition for resource `x` stores the
record under `Model::x`, a key the startup loader — which enumerates the
`state/` prefix (`get_all_resource_states`) — can never see.  The claimed
key `state/Model::x` remains absent. -/
theorem c1_persisted_key_lacks_state_prefix :
    (processStateChange emptyEngine [] 100 changeModelPendingCreate).result.errorCode
        = ErrorCode.Success ∧
    generateResourceKey .Model "x" = "Model::x" ∧
    (lookupKV (processStateChange emptyEngine [] 100 changeModelPendingCreate).kv
        "Model::x").isSome = true ∧
    strIsPrefixOf stateLoadPrefix (generateResourceKey .Model "x") = false ∧
    lookupKV (processStateChange emptyEngine [] 100 changeModelPendingCreate).kv
        (stateLoadPrefix ++ "Model::x") = none := by
  decide

/-- C2: for a well-formed StateChange received on the state-change stream,
the State Manager Service's `process_state_change` resolves the resource
type but performs no validation beyond that, never invokes the State Machine
Engine's transition processing, and forwards nothing to the Action
Controller — its body only logs ("implementation pending"). -/
theorem c2_manager_process_state_change_is_stub :
    (managerProcessStateChange changeModelPendingCreate).parsedResourceType
        = some .Model ∧
    (managerProcessStateChange changeModelPendingCreate).engineInvocations = [] ∧
    (managerProcessStateChange changeModelPendingCreate).forwardedActions = [] := by
  decide

/-- C8: the Action Controller's trigger rejects an empty or whitespace-only
scenario name with the same error on every KV store (so without reading it),
and when the Scenario record is absent the returned error message contains
"not found". -/
theorem c8_trigger_empty_name_and_missing_scenario :
    (∀ (mgr : ActionControllerManager) (kv : ArtifactKV) (name : String),
      strTrim name = "" →
      triggerManagerAction mgr kv name =
        .error "Invalid scenario name: cannot be empty") ∧
    (∀ (mgr : ActionControllerManager) (kv : ArtifactKV),
      lookupKV kv "Scenario/missing" = none →
      triggerManagerAction mgr kv "missing" =
        .error "Scenario 'missing' not found: Key not found" ∧
      containsSubstr "Scenario 'missing' not found: Key not found" "not found"
        = true) := by
  constructor
  · intro mgr kv name h
    unfold triggerManagerAction
    rw [if_pos h]
  · intro mgr kv h
    unfold triggerManagerAction
    rw [if_neg (by decide)]
    rw [(by decide : ("Scenario/" ++ "missing" : String) = "Scenario/missing")]
    simp only [etcdGet, h]
    exact ⟨rfl, by decide⟩

/-- A manager fixture: one Bluechi host node `HPC`, no node-agent nodes. -/
def mgrFixture : ActionControllerManager :=
  { bluechiNodes := ["HPC"], nodeagentNodes := [],
    hostName := "HPC", yamlStorage := "/etc/piccolo/yaml" }

/-- Witness for C8 at a whitespace-only name and at an absent scenario on the
empty store. -/
theorem c8_witness :
    triggerManagerAction mgrFixture [] "  " =
      .error "Invalid scenario name: cannot be empty" ∧
    triggerManagerAction mgrFixture [] "missing" =
      .error "Scenario 'missing' not found: Key not found" := by
  exact ⟨c8_trigger_empty_name_and_missing_scenario.1 mgrFixture [] "  "
      (by decide),
    (c8_trigger_empty_name_and_missing_scenario.2 mgrFixture [] (by decide)).1⟩

/-- A Model of the per-Model loops whose node is in neither node list is
skipped: no command, no error. -/
theorem triggerPerModel_skip (mgr : ActionControllerManager)
    (action target : String) (m : PackageModel)
    (h1 : mgr.bluechiNodes.contains m.node = false)
    (h2 : mgr.nodeagentNodes.contains m.node = false) :
    triggerPerModel mgr action target m = .ok [] := by
  unfold triggerPerModel
  have h1' : m.node ∉ mgr.bluechiNodes := by simpa using h1
  have h2' : m.node ∉ mgr.nodeagentNodes := by simpa using h2
  simp [h1', h2']

theorem reconcilePerModel_skip (mgr : ActionControllerManager)
    (desired : Status) (m : PackageModel)
    (h1 : mgr.bluechiNodes.contains m.node = false)
    (h2 : mgr.nodeagentNodes.contains m.node = false) :
    reconcilePerModel mgr desired m = .ok [] := by
  unfold reconcilePerModel
  have h1' : m.node ∉ mgr.bluechiNodes := by simpa using h1
  have h2' : m.node ∉ mgr.nodeagentNodes := by simpa using h2
  simp [h1', h2']

theorem runPerModels_all_skip (f : PackageModel → Except String (List RuntimeCmd))
    (ms : List PackageModel) (h : ∀ m ∈ ms, f m = .ok []) :
    runPerModels f ms = .ok [] := by
  induction ms with
  | nil => rfl
  | cons m rest ih =>
      unfold runPerModels
      rw [h m (by simp), ih (fun m' hm' => h m' (by simp [hm']))]
      rfl

/-- C10: a Model whose node appears in neither the bluechi list nor the
nodeagent list is silently skipped by both the trigger and the reconcile
loop — no start or stop command is dispatched for it and no error is
produced — and when every Model of the target Package is skipped, both
operations still return success (with no commands at all). -/
theorem c10_unknown_node_models_are_skipped :
    (∀ (mgr : ActionControllerManager) (action target : String)
        (m : PackageModel),
      mgr.bluechiNodes.contains m.node = false →
      mgr.nodeagentNodes.contains m.node = false →
      triggerPerModel mgr action target m = .ok []) ∧
    (∀ (mgr : ActionControllerManager) (desired : Status) (m : PackageModel),
      mgr.bluechiNodes.contains m.node = false →
      mgr.nodeagentNodes.contains m.node = false →
      reconcilePerModel mgr desired m = .ok []) ∧
    (∀ (mgr : ActionControllerManager) (kv : ArtifactKV) (name : String)
        (s : ScenarioArtifact) (p : PackageArtifact),
      ¬ strTrim name = "" →
      lookupKV kv ("Scenario/" ++ name) = some (.scenario s) →
      lookupKV kv ("Package/" ++ s.target) = some (.package p) →
      (∀ m ∈ p.models, mgr.bluechiNodes.contains m.node = false ∧
        mgr.nodeagentNodes.contains m.node = false) →
      triggerManagerAction mgr kv name = .ok []) ∧
    (∀ (mgr : ActionControllerManager) (kv : ArtifactKV) (name : String)
        (s : ScenarioArtifact) (p : PackageArtifact) (current desired : Status),
      ¬ current = desired →
      ¬ (current = .none ∨ current = .failed ∨ current = .unknown) →
      ¬ (desired = .none ∨ desired = .failed ∨ desired = .unknown) →
      lookupKV kv ("scenario/" ++ name) = some (.scenario s) →
      lookupKV kv ("package/" ++ s.target) = some (.package p) →
      (∀ m ∈ p.models, mgr.bluechiNodes.contains m.node = false ∧
        mgr.nodeagentNodes.contains m.node = false) →
      reconcileDo mgr kv name current desired = .ok []) := by
  refine ⟨triggerPerModel_skip, reconcilePerModel_skip, ?_, ?_⟩
  · intro mgr kv name s p hname hs hp hmodels
    unfold triggerManagerAction
    rw [if_neg hname]
    simp only [etcdGet, hs, hp, parseScenario, parsePackage, Except.bind]
    exact runPerModels_all_skip _ _ (fun m hm =>
      triggerPerModel_skip mgr s.action s.target m (hmodels m hm).1
        (hmodels m hm).2)
  · intro mgr kv name s p current desired hcd hc hd hs hp hmodels
    unfold reconcileDo
    rw [if_neg hcd, if_neg hc, if_neg hd]
    simp only [etcdGet, hs, hp, parseScenario, parsePackage, Except.bind]
    exact runPerModels_all_skip _ _ (fun m hm =>
      reconcilePerModel_skip mgr desired m (hmodels m hm).1 (hmodels m hm).2)

/-- A Package fixture whose single Model lives on the unknown node `VM`. -/
def pkgUnknownNode : PackageArtifact :=
  { name := "p1", models := [{ name := "m1", node := "VM",
                               volume := none, network := none }] }

/-- A Scenario fixture targeting `p1` with the launch action. -/
def scenLaunchP1 : ScenarioArtifact :=
  { name := "s1", condition := none, action := "launch", target := "p1" }

/-- The artifact store holding the two fixtures under both key casings. -/
def kvFixture : ArtifactKV :=
  [("Scenario/s1", .scenario scenLaunchP1),
   ("Package/p1", .package pkgUnknownNode),
   ("scenario/s1", .scenario scenLaunchP1),
   ("package/p1", .package pkgUnknownNode)]

/-- Witness for C10: with every Model on an unknown node, the trigger and the
reconcile both succeed with no dispatched command. -/
theorem c10_witness :
    triggerManagerAction mgrFixture kvFixture "s1" = .ok [] ∧
    reconcileDo mgrFixture kvFixture "s1" Status.initializing Status.running =
      .ok [] := by
  constructor
  · exact c10_unknown_node_models_are_skipped.2.2.1 mgrFixture kvFixture "s1"
      scenLaunchP1 pkgUnknownNode (by decide) (by decide) (by decide)
      (by intro m hm; fin_cases hm; exact ⟨by decide, by decide⟩)
  · exact c10_unknown_node_models_are_skipped.2.2.2 mgrFixture kvFixture "s1"
      scenLaunchP1 pkgUnknownNode Status.initializing Status.running (by decide)
      (by decide) (by decide) (by decide) (by decide)
      (by intro m hm; fin_cases hm; exact ⟨by decide, by decide⟩)

/-- A persisted record for Model `m` in the crash-loop-backoff state. -/
def recModelCrashLoop : SerializableResourceState :=
  { resourceType := 3, resourceName := "m",
    currentState := "MODEL_STATE_CRASH_LOOP_BACK_OFF",
    desiredState := none, lastTransitionUnixTimestamp := 0,
    transitionCount := 4, metadata := [],
    healthStatus := { healthy := true, statusMessage := "Healthy",
                      lastCheckUnixTimestamp := 0,
                      consecutiveFailures := 0 } }

/-- A KV store holding only the crash-looping Model `m`. -/
def kvClbo : StateKV := [("Model::m", recModelCrashLoop)]

/-- An engine whose backoff table has a timer for Model `m` started at 0. -/
def engineWithTimer : Engine :=
  { resourceStates := [], backoffTimers := [("Model::m", 0)],
    healthStatuses := [] }

/-- A well-formed StateChange asking Model `m`:
CrashLoopBackOff → Running. -/
def changeBackoffToRunning : StateChange :=
  { resourceType := 3, resourceName := "m",
    currentState := "MODEL_STATE_CRASH_LOOP_BACK_OFF",
    targetState := "MODEL_STATE_RUNNING",
    transitionId := "t2", source := "nodeagent", timestampNs := 0 }

/-- C4: while a resource whose current state is the Model
crash-loop-backoff value has a backoff-timer entry younger than
`BACKOFF_DURATION_SECS` (30 s), any well-formed transition attempt on it
fails with `PreconditionFailed` and leaves the engine state (cache, timers,
health) and the KV record untouched; once the timer age reaches 30 s the
backoff check no longer rejects. -/
theorem c4_backoff_gate :
    (∀ (e : Engine) (kv : StateKV) (now : Nat) (c : StateChange)
        (rt : ResourceType) (t0 : Nat),
      validateStateChange c = none →
      ResourceType.tryFrom c.resourceType = some rt →
      getCurrentStateFromStorage kv (generateResourceKey rt c.resourceName)
          c.currentState c.resourceType = modelCrashLoopBackOff →
      lookupKV e.backoffTimers (generateResourceKey rt c.resourceName) = some t0 →
      now - t0 < BACKOFF_DURATION_SECS →
      (processStateChange e kv now c).result.errorCode = .PreconditionFailed ∧
      (processStateChange e kv now c).engine = e ∧
      (processStateChange e kv now c).kv = kv ∧
      (processStateChange e kv now c).actions = []) ∧
    (∀ (timers : List (String × Nat)) (key : String) (state now t0 : Nat),
      lookupKV timers key = some t0 →
      BACKOFF_DURATION_SECS ≤ now - t0 →
      checkBackoffPeriod timers key state now = none) := by
  constructor
  · intro e kv now c rt t0 hv hrt hcur htimer hage
    have hb : checkBackoffPeriod e.backoffTimers
        (generateResourceKey rt c.resourceName)
        (getCurrentStateFromStorage kv (generateResourceKey rt c.resourceName)
          c.currentState c.resourceType) now
        = some (.PreconditionFailed, "Resource is in backoff period") := by
      rw [hcur]
      unfold checkBackoffPeriod
      rw [if_pos rfl, htimer]
      simp only []
      rw [if_pos (Nat.sub_ne_zero_of_lt hage)]
    unfold processStateChange
    simp only [hv, hrt, hb]
    refine ⟨?_, ?_, ?_, ?_⟩ <;> trivial
  · intro timers key state now t0 htimer hage
    unfold checkBackoffPeriod
    by_cases hstate : state = modelCrashLoopBackOff
    · rw [if_pos hstate, htimer]
      simp only []
      rw [if_neg]
      simp [Nat.sub_eq_zero_of_le hage]
    · rw [if_neg hstate]

/-- Witness for C4: the crash-looping Model `m` with a 5-second-old timer is
rejected without any mutation, and the same timer at age 30 passes the
backoff check. -/
theorem c4_witness :
    (processStateChange engineWithTimer kvClbo 5 changeBackoffToRunning).result.errorCode
        = .PreconditionFailed ∧
    (processStateChange engineWithTimer kvClbo 5 changeBackoffToRunning).engine
        = engineWithTimer ∧
    (processStateChange engineWithTimer kvClbo 5 changeBackoffToRunning).kv
        = kvClbo ∧
    (processStateChange engineWithTimer kvClbo 5 changeBackoffToRunning).actions
        = [] ∧
    checkBackoffPeriod [("Model::m", 0)] "Model::m" modelCrashLoopBackOff 30
        = none := by
  have h := c4_backoff_gate.1 engineWithTimer kvClbo 5 changeBackoffToRunning
    .Model 0 (by decide) (by decide) (by decide) (by decide) (by decide)
  exact ⟨h.1, h.2.1, h.2.2.1, h.2.2.2,
    c4_backoff_gate.2 [("Model::m", 0)] "Model::m" modelCrashLoopBackOff 30 0
      (by decide) (by decide)⟩

/-- Shape of a successful `process_state_change`: the call went through the
success branch, i.e. it equals `executeTransition` on the transition row it
found. -/
theorem success_step_eq (e : Engine) (kv : StateKV) (now : Nat) (c : StateChange)
    (h : (processStateChange e kv now c).result.success = true) :
    ∃ rt t,
      ResourceType.tryFrom c.resourceType = some rt ∧
      processStateChange e kv now c =
        executeTransition e kv now c rt (generateResourceKey rt c.resourceName) t := by
  unfold processStateChange at h ⊢
  cases hval : validateStateChange c with
  | some verr =>
      simp [hval, TransitionResult.mkFailure] at h
  | none =>
  simp only [hval] at h ⊢
  cases hrt : ResourceType.tryFrom c.resourceType with
  | none => simp [hrt, TransitionResult.mkFailure] at h
  | some rt =>
  simp only [hrt] at h ⊢
  cases hb : checkBackoffPeriod e.backoffTimers
      (generateResourceKey rt c.resourceName)
      (getCurrentStateFromStorage kv (generateResourceKey rt c.resourceName)
        c.currentState c.resourceType) now with
  | some p =>
      obtain ⟨ec, msg⟩ := p
      simp [hb, TransitionResult.mkFailure] at h
  | none =>
  simp only [hb] at h ⊢
  cases hfind : findValidTransition rt
      (getCurrentStateFromStorage kv (generateResourceKey rt c.resourceName)
        c.currentState c.resourceType)
      (inferEventFromStates
        (getCurrentStateFromStorage kv (generateResourceKey rt c.resourceName)
          c.currentState c.resourceType)
        (stateStrToEnum c.targetState c.resourceType) rt)
      (stateStrToEnum c.targetState c.resourceType) with
  | none => simp [hfind, TransitionResult.mkFailure] at h
  | some t =>
  simp only [hfind] at h ⊢
  by_cases hcond : t.condition.isSome ∧ ¬ evaluateCondition (t.condition.getD "") c
  · rw [if_pos hcond] at h
    simp [TransitionResult.mkFailure] at h
  · rw [if_neg hcond] at h ⊢
    exact ⟨rt, t, rfl, rfl⟩

/-- C5 (amended): after any successful transition, the backoff table equals
the old table updated by `set_backoff_timer`: an entry for the transitioned
resource is inserted with value `now` exactly when the new state is the
Model crash-loop-backoff value; when it is not, the table — including any
stale entry for this resource — is left untouched (entries are never
cleared). -/
theorem c5_backoff_table_after_success :
    (∀ (e : Engine) (kv : StateKV) (now : Nat) (c : StateChange)
        (rt : ResourceType),
      ResourceType.tryFrom c.resourceType = some rt →
      (processStateChange e kv now c).result.success = true →
      (processStateChange e kv now c).engine.backoffTimers =
        setBackoffTimer e.backoffTimers (generateResourceKey rt c.resourceName)
          (processStateChange e kv now c).result.newState now) ∧
    (∀ (timers : List (String × Nat)) (key : String) (s now : Nat),
      (s = modelCrashLoopBackOff →
        lookupKV (setBackoffTimer timers key s now) key = some now) ∧
      (s ≠ modelCrashLoopBackOff → setBackoffTimer timers key s now = timers)) := by
  constructor
  · intro e kv now c rt hrt h
    obtain ⟨rt', t, hrt', hstep⟩ := success_step_eq e kv now c h
    have hrr : rt = rt' := by
      rw [hrt] at hrt'
      exact Option.some.inj hrt'
    subst hrr
    rw [hstep]
    simp [executeTransition, TransitionResult.mkSuccess]
  · intro timers key s now
    constructor
    · intro hs
      rw [setBackoffTimer, if_pos hs]
      exact lookupKV_insertKV_self timers key now
    · intro hs
      rw [setBackoffTimer, if_neg hs]

/-- Counterexample to C5 as stated: restoring the crash-looping Model `m`
(timer started at 0) and processing CrashLoopBackOff → Running at `now = 31`
succeeds, the new state is Running (not the backoff state), yet the
backoff-timer table still contains the entry for `Model::m` — it is not
cleared by the successful transition. -/
theorem c5_counterexample :
    (processStateChange engineWithTimer kvClbo 31 changeBackoffToRunning).result.success
        = true ∧
    (processStateChange engineWithTimer kvClbo 31 changeBackoffToRunning).result.newState
        = modelRunning ∧
    modelRunning ≠ modelCrashLoopBackOff ∧
    lookupKV (processStateChange engineWithTimer kvClbo 31
        changeBackoffToRunning).engine.backoffTimers "Model::m" = some 0 := by
  decide

/-- Witness for C5 at the concrete CrashLoopBackOff → Running run and at
concrete `set_backoff_timer` calls. -/
theorem c5_witness :
    (processStateChange engineWithTimer kvClbo 31 changeBackoffToRunning).engine.backoffTimers
        = setBackoffTimer engineWithTimer.backoffTimers
            (generateResourceKey .Model "m")
            (processStateChange engineWithTimer kvClbo 31
              changeBackoffToRunning).result.newState 31 ∧
    lookupKV (setBackoffTimer [] "Model::m" modelCrashLoopBackOff 7) "Model::m"
        = some 7 ∧
    setBackoffTimer [] "Model::m" modelRunning 7 = [] :=
  ⟨c5_backoff_table_after_success.1 engineWithTimer kvClbo 31
      changeBackoffToRunning .Model (by decide) (by decide),
   (c5_backoff_table_after_success.2 [] "Model::m" modelCrashLoopBackOff 7).1
      (by decide),
   (c5_backoff_table_after_success.2 [] "Model::m" modelRunning 7).2
      (by decide)⟩

/-- C6 (amended): three consecutive failures recorded by the health manager
drive `healthy` to `false` from any starting status, and after any
successful transition the resource's health entry is healthy with a zero
consecutive-failure counter.  (Failures rejected before transition
evaluation — validation, backoff gating, guard failures — are not recorded
by the health manager.) -/
theorem c6_health_after_failures_and_success :
    (∀ (h : HealthStatus) (r1 r2 r3 : TransitionResult) (n1 n2 n3 : Nat),
      r1.isSuccess = false → r2.isSuccess = false → r3.isSuccess = false →
      (updateHealth (updateHealth (updateHealth h r1 n1) r2 n2) r3 n3).healthy
        = false) ∧
    (∀ (e : Engine) (kv : StateKV) (now : Nat) (c : StateChange)
        (rt : ResourceType),
      ResourceType.tryFrom c.resourceType = some rt →
      (processStateChange e kv now c).result.success = true →
      lookupKV (processStateChange e kv now c).engine.healthStatuses
          (generateResourceKey rt c.resourceName) =
        some { healthy := true, statusMessage := "Healthy", lastCheck := now,
               consecutiveFailures := 0 }) := by
  constructor
  · intro h r1 r2 r3 n1 n2 n3 h1 h2 h3
    simp only [updateHealth, h1, h2, h3, Bool.false_eq_true, if_false]
    rw [if_pos (by simp only [MAX_CONSECUTIVE_FAILURES]; omega)]
  · intro e kv now c rt hrt h
    obtain ⟨rt', t, hrt', hstep⟩ := success_step_eq e kv now c h
    have hrr : rt = rt' := by
      rw [hrt] at hrt'
      exact Option.some.inj hrt'
    subst hrr
    rw [hstep]
    simp only [executeTransition, updateHealthStatus]
    rw [lookupKV_insertKV_self]
    simp [updateHealth, TransitionResult.isSuccess, TransitionResult.mkSuccess]

/-- An engine with a fresh backoff timer and an initialized, healthy health
entry for Model `m`. -/
def engineWithTimerHealth : Engine :=
  { resourceStates := [], backoffTimers := [("Model::m", 0)],
    healthStatuses := [("Model::m", freshHealthStatus 0)] }

/-- First of three consecutive backoff-rejected attempts on Model `m`. -/
def c6Step1 : StepResult :=
  processStateChange engineWithTimerHealth kvClbo 1 changeBackoffToRunning
/-- Second consecutive backoff-rejected attempt. -/
def c6Step2 : StepResult :=
  processStateChange c6Step1.engine c6Step1.kv 2 changeBackoffToRunning
/-- Third consecutive backoff-rejected attempt. -/
def c6Step3 : StepResult :=
  processStateChange c6Step2.engine c6Step2.kv 3 changeBackoffToRunning

/-- Counterexample to C6 as stated: three consecutive failed transition
attempts (each rejected by the backoff gate with `PreconditionFailed`) leave
the resource's tracked health entry untouched — `healthy` is still `true`
and `consecutive_failures` still 0, because the early-rejection paths never
reach the health manager. -/
theorem c6_counterexample :
    c6Step1.result.success = false ∧
    c6Step1.result.errorCode = .PreconditionFailed ∧
    c6Step2.result.success = false ∧
    c6Step2.result.errorCode = .PreconditionFailed ∧
    c6Step3.result.success = false ∧
    c6Step3.result.errorCode = .PreconditionFailed ∧
    lookupKV c6Step3.engine.healthStatuses "Model::m" =
      some { healthy := true, statusMessage := "Healthy", lastCheck := 0,
             consecutiveFailures := 0 } := by
  decide

/-- A failed transition result used to exercise the health manager. -/
def failRes : TransitionResult :=
  TransitionResult.mkFailure 3 "t" .InvalidStateTransition "msg" "det" 0

/-- Witness for C6 at three concrete recorded failures and at the concrete
successful CrashLoopBackOff → Running run. -/
theorem c6_witness :
    (updateHealth (updateHealth (updateHealth (freshHealthStatus 0) failRes 1)
        failRes 2) failRes 3).healthy = false ∧
    lookupKV (processStateChange engineWithTimer kvClbo 31
        changeBackoffToRunning).engine.healthStatuses
      (generateResourceKey .Model "m") =
      some { healthy := true, statusMessage := "Healthy", lastCheck := 31,
             consecutiveFailures := 0 } :=
  ⟨c6_health_after_failures_and_success.1 (freshHealthStatus 0) failRes failRes
      failRes 1 2 3 (by decide) (by decide) (by decide),
   c6_health_after_failures_and_success.2 engineWithTimer kvClbo 31
      changeBackoffToRunning .Model (by decide) (by decide)⟩

/-- A well-formed-except-for-identical-states request Running → Running. -/
def changeRunningToRunning : StateChange :=
  { resourceType := 3, resourceName := "m",
    currentState := "MODEL_STATE_RUNNING",
    targetState := "MODEL_STATE_RUNNING",
    transitionId := "t3", source := "nodeagent", timestampNs := 0 }

/-- A well-formed StateChange asking Model `m`:
CrashLoopBackOff → Pending (no such transition row exists). -/
def changeBackoffToPending : StateChange :=
  { resourceType := 3, resourceName := "m",
    currentState := "MODEL_STATE_CRASH_LOOP_BACK_OFF",
    targetState := "MODEL_STATE_PENDING",
    transitionId := "t4", source := "nodeagent", timestampNs := 0 }

/-- Counterexample to C3 as stated: two legal (from, to) pairs with no
matching transition row for which the engine does NOT return
`InvalidStateTransition` — the identical pair Running → Running is rejected
earlier by validation with `InvalidRequest`, and
CrashLoopBackOff → Pending under an active backoff timer is rejected by the
backoff gate with `PreconditionFailed`. -/
theorem c3_counterexample :
    ((stateName .Model modelRunning).isSome = true ∧
     findValidTransition .Model modelRunning
       (inferEventFromStates modelRunning modelRunning .Model) modelRunning
       = none ∧
     (processStateChange emptyEngine [] 100 changeRunningToRunning).result.errorCode
       = .InvalidRequest ∧
     ¬ (processStateChange emptyEngine [] 100 changeRunningToRunning).result.errorCode
       = .InvalidStateTransition) ∧
    ((stateName .Model modelCrashLoopBackOff).isSome = true ∧
     (stateName .Model modelPending).isSome = true ∧
     findValidTransition .Model modelCrashLoopBackOff
       (inferEventFromStates modelCrashLoopBackOff modelPending .Model)
       modelPending = none ∧
     (processStateChange engineWithTimer kvClbo 5 changeBackoffToPending).result.errorCode
       = .PreconditionFailed ∧
     ¬ (processStateChange engineWithTimer kvClbo 5 changeBackoffToPending).result.errorCode
       = .InvalidStateTransition) := by
  decide

/-- C3 (amended): for every resource kind and every pair of distinct legal
states (from, to) such that no transition row matches (from, inferred event,
to), a well-formed StateChange requesting from → to on a resource that is
not gated by an active Model-backoff timer fails with
`InvalidStateTransition`, and neither the in-memory resource-state cache,
nor the backoff-timer table, nor the KV store is mutated (only the health
table records the failure). -/
theorem c3_invalid_transition_rejected :
    ∀ (e : Engine) (kv : StateKV) (now : Nat) (c : StateChange)
      (rt : ResourceType) (fromS toS : Nat),
      validateStateChange c = none →
      ResourceType.tryFrom c.resourceType = some rt →
      getCurrentStateFromStorage kv (generateResourceKey rt c.resourceName)
        c.currentState c.resourceType = fromS →
      stateStrToEnum c.targetState c.resourceType = toS →
      (stateName rt fromS).isSome = true →
      (stateName rt toS).isSome = true →
      fromS ≠ toS →
      checkBackoffPeriod e.backoffTimers (generateResourceKey rt c.resourceName)
        fromS now = none →
      findValidTransition rt fromS (inferEventFromStates fromS toS rt) toS
        = none →
      (processStateChange e kv now c).result.errorCode
          = .InvalidStateTransition ∧
      (processStateChange e kv now c).engine.resourceStates
          = e.resourceStates ∧
      (processStateChange e kv now c).engine.backoffTimers
          = e.backoffTimers ∧
      (processStateChange e kv now c).kv = kv ∧
      (processStateChange e kv now c).actions = [] := by
  intro e kv now c rt fromS toS hv hrt hcur htarget hlf hlt hne hb hnorow
  unfold processStateChange
  simp only [hv, hrt, hcur, htarget, hb, hnorow]
  refine ⟨?_, ?_, ?_, ?_, ?_⟩ <;> trivial

/-- A persisted record for Model `x` in the Running state. -/
def recModelRunning : SerializableResourceState :=
  { resourceType := 3, resourceName := "x",
    currentState := "MODEL_STATE_RUNNING",
    desiredState := none, lastTransitionUnixTimestamp := 0,
    transitionCount := 2, metadata := [],
    healthStatus := { healthy := true, statusMessage := "Healthy",
                      lastCheckUnixTimestamp := 0,
                      consecutiveFailures := 0 } }

/-- A KV store holding only the running Model `x`. -/
def kvRunning : StateKV := [("Model::x", recModelRunning)]

/-- A well-formed StateChange asking Model `x`: Running → Pending
(no such transition row exists). -/
def changeRunningToPending : StateChange :=
  { resourceType := 3, resourceName := "x",
    currentState := "MODEL_STATE_RUNNING",
    targetState := "MODEL_STATE_PENDING",
    transitionId := "t5", source := "nodeagent", timestampNs := 0 }

/-- Witness for C3 at the concrete request Running → Pending on Model `x`. -/
theorem c3_witness :
    (processStateChange emptyEngine kvRunning 50 changeRunningToPending).result.errorCode
        = .InvalidStateTransition ∧
    (processStateChange emptyEngine kvRunning 50 changeRunningToPending).engine.resourceStates
        = emptyEngine.resourceStates ∧
    (processStateChange emptyEngine kvRunning 50 changeRunningToPending).engine.backoffTimers
        = emptyEngine.backoffTimers ∧
    (processStateChange emptyEngine kvRunning 50 changeRunningToPending).kv
        = kvRunning ∧
    (processStateChange emptyEngine kvRunning 50 changeRunningToPending).actions
        = [] :=
  c3_invalid_transition_rejected emptyEngine kvRunning 50 changeRunningToPending
    .Model modelRunning modelPending (by decide) (by decide) (by decide)
    (by decide) (by decide) (by decide) (by decide) (by decide) (by decide)

theorem tryFrom_toNat (rt : ResourceType) :
    ResourceType.tryFrom rt.toNat = some rt := by
  cases rt <;> rfl

/-- `from_str_name` is a left inverse of `as_str_name` on every declared
enum value. -/
theorem stateOfName_roundtrip (rt : ResourceType) (c : Nat)
    (h : (stateName rt c).isSome = true) :
    stateOfName rt ((stateName rt c).getD "UNKNOWN") = some c := by
  cases rt with
  | Scenario =>
      rcases c with _|_|_|_|_|_|c
      · decide
      · decide
      · decide
      · decide
      · decide
      · decide
      · simp [stateName] at h
  | Package =>
      rcases c with _|_|_|_|_|_|_|c
      · decide
      · decide
      · decide
      · decide
      · decide
      · decide
      · decide
      · simp [stateName] at h
  | Model =>
      rcases c with _|_|_|_|_|_|_|_|c
      · decide
      · decide
      · decide
      · decide
      · decide
      · decide
      · decide
      · decide
      · simp [stateName] at h
  | Volume => simp [stateName] at h
  | Network => simp [stateName] at h
  | Node => simp [stateName] at h

/-- C9: serializing a ResourceState to its KV representation at time `t1`
and deserializing at time `t2` reproduces every field except the in-memory
`Instant` fields (`last_transition_time` and the health `last_check`), which
come back as the deserialization-time anchor.  The state values must be
declared values of the kind's state enum (the data-model invariant: only
Scenario, Package and Model have state enums). -/
theorem c9_resource_state_roundtrip :
    ∀ (s : ResourceState) (t1 t2 : Nat),
      (stateName s.resourceType s.currentState).isSome = true →
      (∀ d, s.desiredState = some d →
        (stateName s.resourceType d).isSome = true) →
      ResourceState.ofSerializable
          (SerializableResourceState.ofResourceState s t1) t2 =
        { s with lastTransitionTime := t2,
                 healthStatus := { s.healthStatus with lastCheck := t2 } } := by
  intro s t1 t2 hcur hdes
  obtain ⟨rt, name, cs, ds, lt, tc, md, hs⟩ := s
  obtain ⟨hh, hm, hl, hc⟩ := hs
  dsimp only at hcur hdes ⊢
  cases rt with
  | Volume => simp [stateName] at hcur
  | Network => simp [stateName] at hcur
  | Node => simp [stateName] at hcur
  | Scenario =>
      have h1 := stateOfName_roundtrip .Scenario cs hcur
      cases ds with
      | none =>
          simp [SerializableResourceState.ofResourceState,
            ResourceState.ofSerializable, SerializableHealthStatus.ofHealthStatus,
            HealthStatus.ofSerializable, tryFrom_toNat, h1]
      | some d =>
          have h2 := stateOfName_roundtrip .Scenario d (hdes d rfl)
          simp [SerializableResourceState.ofResourceState,
            ResourceState.ofSerializable, SerializableHealthStatus.ofHealthStatus,
            HealthStatus.ofSerializable, tryFrom_toNat, h1, h2]
  | Package =>
      have h1 := stateOfName_roundtrip .Package cs hcur
      cases ds with
      | none =>
          simp [SerializableResourceState.ofResourceState,
            ResourceState.ofSerializable, SerializableHealthStatus.ofHealthStatus,
            HealthStatus.ofSerializable, tryFrom_toNat, h1]
      | some d =>
          have h2 := stateOfName_roundtrip .Package d (hdes d rfl)
          simp [SerializableResourceState.ofResourceState,
            ResourceState.ofSerializable, SerializableHealthStatus.ofHealthStatus,
            HealthStatus.ofSerializable, tryFrom_toNat, h1, h2]
  | Model =>
      have h1 := stateOfName_roundtrip .Model cs hcur
      cases ds with
      | none =>
          simp [SerializableResourceState.ofResourceState,
            ResourceState.ofSerializable, SerializableHealthStatus.ofHealthStatus,
            HealthStatus.ofSerializable, tryFrom_toNat, h1]
      | some d =>
          have h2 := stateOfName_roundtrip .Model d (hdes d rfl)
          simp [SerializableResourceState.ofResourceState,
            ResourceState.ofSerializable, SerializableHealthStatus.ofHealthStatus,
            HealthStatus.ofSerializable, tryFrom_toNat, h1, h2]

/-- A runtime resource state for a running Model with a desired state and
nonempty metadata. -/
def rsFixture : ResourceState :=
  { resourceType := .Model, resourceName := "x", currentState := 3,
    desiredState := some 1, lastTransitionTime := 11, transitionCount := 5,
    metadata := [("k", "v")],
    healthStatus := { healthy := true, statusMessage := "Healthy",
                      lastCheck := 9, consecutiveFailures := 0 } }

/-- Witness for C9 at a concrete Model resource state. -/
theorem c9_witness :
    ResourceState.ofSerializable
        (SerializableResourceState.ofResourceState rsFixture 100) 200 =
      { rsFixture with
          lastTransitionTime := 200
          healthStatus := { rsFixture.healthStatus with lastCheck := 200 } } :=
  c9_resource_state_roundtrip rsFixture 100 200 (by decide)
    (by intro d hd
        simp only [rsFixture] at hd
        injection hd with h
        subst h
        decide)

/-- The record written back for a swept node: status set to Offline and
`last_heartbeat` refreshed by `update_heartbeat` inside `update_node_status`. -/
def markOffline (n : NodeInfo) (now : Int) : NodeInfo :=
  { n with status := .Offline, lastHeartbeat := now }

/-- With pairwise-distinct keys, lookup finds exactly the stored binding. -/
theorem lookupKV_of_mem_nodup {α : Type} (l : List (String × α)) (k : String)
    (v : α) (hmem : (k, v) ∈ l) (hnodup : (l.map Prod.fst).Nodup) :
    lookupKV l k = some v := by
  induction l with
  | nil => simp at hmem
  | cons p rest ih =>
      obtain ⟨a, b⟩ := p
      rw [List.map_cons] at hnodup
      have hn := List.nodup_cons.mp hnodup
      rcases List.mem_cons.mp hmem with heq | hrest
      · injection heq with h1 h2
        subst h1
        subst h2
        simp [lookupKV]
      · have hk : a ≠ k := by
          intro hak
          subst hak
          exact hn.1 (List.mem_map.mpr ⟨(a, v), hrest, rfl⟩)
        simp only [lookupKV, hk, if_false]
        exact ih hrest hn.2

/-- The sweep condition of `check_stale_nodes`: heartbeat age strictly over
the 90 s timeout and the node is online. -/
def isStale (now : Int) (n : NodeInfo) : Prop :=
  now - n.lastHeartbeat > HEARTBEAT_TIMEOUT_SECONDS ∧ n.isOnline

instance (now : Int) (n : NodeInfo) : Decidable (isStale now n) := by
  unfold isStale; infer_instance

/-- Behaviour of the sweep loop over a snapshot with pairwise-distinct node
ids: it never fails, returns exactly the stale online ids, marks those
nodes Offline, and leaves every other key untouched. -/
theorem sweepGo_spec (now : Int) (snapshot : List NodeInfo) :
    ∀ (store : NodeStore) (acc : List String),
      (∀ n ∈ snapshot, lookupKV store n.nodeId = some n) →
      (snapshot.map (fun n => n.nodeId)).Nodup →
      ∃ store' swept,
        sweepGo now snapshot store acc = some (store', acc.reverse ++ swept) ∧
        swept = (snapshot.filter (fun n => decide (isStale now n))).map
          (fun n => n.nodeId) ∧
        (∀ n ∈ snapshot,
          lookupKV store' n.nodeId =
            some (if isStale now n then markOffline n now else n)) ∧
        (∀ k, k ∉ snapshot.map (fun n => n.nodeId) →
          lookupKV store' k = lookupKV store k) := by
  induction snapshot with
  | nil =>
      intro store acc h1 hnodup
      exact ⟨store, [], by simp [sweepGo], rfl, by simp, fun k _ => rfl⟩
  | cons n rest ih =>
      intro store acc h1 hnodup
      rw [List.map_cons] at hnodup
      have hn := List.nodup_cons.mp hnodup
      by_cases hcond : isStale now n
      · have hup : updateNodeStatus store n.nodeId .Offline now =
            some (insertKV store n.nodeId (markOffline n now)) := by
          unfold updateNodeStatus
          rw [h1 n (by simp)]
          rfl
        have hstep : sweepGo now (n :: rest) store acc =
            sweepGo now rest (insertKV store n.nodeId (markOffline n now))
              (n.nodeId :: acc) := by
          rw [sweepGo]
          rw [if_pos (show now - n.lastHeartbeat > HEARTBEAT_TIMEOUT_SECONDS ∧
            n.isOnline from hcond), hup]
        have h1' : ∀ m ∈ rest,
            lookupKV (insertKV store n.nodeId (markOffline n now)) m.nodeId
              = some m := by
          intro m hm
          have hne : m.nodeId ≠ n.nodeId := by
            intro he
            exact hn.1 (he ▸ List.mem_map.mpr ⟨m, hm, rfl⟩)
          rw [lookupKV_insertKV_other _ _ _ _ hne]
          exact h1 m (by simp [hm])
        obtain ⟨store', swept, heq, hswept, hmem, hout⟩ :=
          ih _ (n.nodeId :: acc) h1' hn.2
        refine ⟨store', n.nodeId :: swept, ?_, ?_, ?_, ?_⟩
        · rw [hstep, heq]
          simp
        · rw [hswept]
          simp [List.filter_cons, hcond]
        · intro m hm
          rcases List.mem_cons.mp hm with rfl | hmr
          · rw [hout m.nodeId hn.1, lookupKV_insertKV_self, if_pos hcond]
          · exact hmem m hmr
        · intro k hk
          simp only [List.map_cons, List.mem_cons, not_or] at hk
          rw [hout k hk.2, lookupKV_insertKV_other _ _ _ _ hk.1]
      · have hstep : sweepGo now (n :: rest) store acc =
            sweepGo now rest store acc := by
          rw [sweepGo]
          rw [if_neg (show ¬(now - n.lastHeartbeat > HEARTBEAT_TIMEOUT_SECONDS ∧
            n.isOnline) from hcond)]
        obtain ⟨store', swept, heq, hswept, hmem, hout⟩ :=
          ih store acc (fun m hm => h1 m (by simp [hm])) hn.2
        refine ⟨store', swept, ?_, ?_, ?_, ?_⟩
        · rw [hstep, heq]
        · rw [hswept]
          simp [List.filter_cons, hcond]
        · intro m hm
          rcases List.mem_cons.mp hm with rfl | hmr
          · rw [hout m.nodeId hn.1, if_neg hcond]
            exact h1 m (by simp)
          · exact hmem m hmr
        · intro k hk
          simp only [List.map_cons, List.mem_cons, not_or] at hk
          exact hout k hk.2

/-- C7: one run of the registry's stale-node sweep marks every node that was
Online with heartbeat age strictly over 90 s as Offline (refreshing its
heartbeat via `update_node_status`) and returns exactly those node ids in
the swept set; every other node record is unchanged.  The store is assumed
key-consistent (each record stored under its own node id, at most one
record per id), the registry's documented invariant. -/
theorem c7_stale_sweep :
    ∀ (store : NodeStore) (now : Int),
      (∀ p ∈ store, p.2.nodeId = p.1) →
      (store.map Prod.fst).Nodup →
      ∃ store' swept,
        checkStaleNodes store now = some (store', swept) ∧
        ∀ p ∈ store,
          (isStale now p.2 →
            lookupKV store' p.1 = some (markOffline p.2 now) ∧ p.1 ∈ swept) ∧
          (¬ isStale now p.2 →
            lookupKV store' p.1 = some p.2 ∧ p.1 ∉ swept) := by
  intro store now hkeys hnodup
  have hmap : (store.map (fun p => p.2)).map (fun n => n.nodeId)
      = store.map Prod.fst := by
    rw [List.map_map]
    exact List.map_congr_left (fun p hp => hkeys p hp)
  have hsnapnodup : ((store.map (fun p => p.2)).map (fun n => n.nodeId)).Nodup := by
    rw [hmap]; exact hnodup
  have hmemstore : ∀ p ∈ store, (p.2.nodeId, p.2) ∈ store := by
    intro p hp
    rw [hkeys p hp]
    exact hp
  have h1 : ∀ n ∈ store.map (fun p => p.2), lookupKV store n.nodeId = some n := by
    intro n hn
    obtain ⟨p, hp, rfl⟩ := List.mem_map.mp hn
    exact lookupKV_of_mem_nodup store p.2.nodeId p.2 (hmemstore p hp) hnodup
  obtain ⟨store', swept, heq, hswept, hmem, _⟩ :=
    sweepGo_spec now (store.map (fun p => p.2)) store [] h1 hsnapnodup
  refine ⟨store', swept, by simpa [checkStaleNodes] using heq, ?_⟩
  intro p hp
  have hpn : p.2 ∈ store.map (fun q => q.2) := List.mem_map.mpr ⟨p, hp, rfl⟩
  have hlook := hmem p.2 hpn
  rw [hkeys p hp] at hlook
  constructor
  · intro hstale
    rw [if_pos hstale] at hlook
    refine ⟨hlook, ?_⟩
    rw [hswept]
    refine List.mem_map.mpr ⟨p.2, List.mem_filter.mpr ⟨hpn, by simpa using hstale⟩,
      hkeys p hp⟩
  · intro hstale
    rw [if_neg hstale] at hlook
    refine ⟨hlook, ?_⟩
    rw [hswept]
    intro hcontra
    obtain ⟨m, hmf, hmid⟩ := List.mem_map.mp hcontra
    have hmm := List.mem_filter.mp hmf
    obtain ⟨q, hq, rfl⟩ := List.mem_map.mp hmm.1
    have hq1 : q.1 = p.1 := by rw [← hkeys q hq]; exact hmid
    have e1 := lookupKV_of_mem_nodup store q.1 q.2 hq hnodup
    have e2 := lookupKV_of_mem_nodup store p.1 p.2 hp hnodup
    rw [hq1, e2] at e1
    have hqp : q.2 = p.2 := by
      injection e1 with h
      exact h.symm
    rw [hqp] at hmm
    exact hstale (of_decide_eq_true hmm.2)

/-- Default resource gauges for the registry fixtures. -/
def nodeResourcesFixture : NodeResources :=
  { cpuCores := 4, memoryMb := 8192, diskGb := 64,
    cpuUsage := 0.0, memoryUsage := 0.0 }

/-- An online node whose heartbeat (at `now = 1000`) is 120 s old. -/
def nodeN1 : NodeInfo :=
  { nodeId := "n1", nodeName := "node-1", ipAddress := "10.0.0.1",
    role := .Sub, status := .Online, resources := nodeResourcesFixture,
    labels := [], createdAt := 0, lastHeartbeat := 880 }

/-- An online node whose heartbeat (at `now = 1000`) is 10 s old. -/
def nodeN2 : NodeInfo :=
  { nodeN1 with
      nodeId := "n2"
      nodeName := "node-2"
      ipAddress := "10.0.0.2"
      lastHeartbeat := 990 }

/-- The registry store holding `n1` (stale) and `n2` (fresh). -/
def nodeStoreFixture : NodeStore := [("n1", nodeN1), ("n2", nodeN2)]

/-- Witness for C7 at a two-node store: `n1` Online with a 120 s old
heartbeat, `n2` Online with a 10 s old heartbeat, swept at `now = 1000`. -/
theorem c7_witness :
    ∃ store' swept,
      checkStaleNodes nodeStoreFixture 1000 = some (store', swept) ∧
      ∀ p ∈ nodeStoreFixture,
        (isStale 1000 p.2 →
          lookupKV store' p.1 = some (markOffline p.2 1000) ∧ p.1 ∈ swept) ∧
        (¬ isStale 1000 p.2 →
          lookupKV store' p.1 = some p.2 ∧ p.1 ∉ swept) :=
  c7_stale_sweep nodeStoreFixture 1000
    (by intro p hp
        rcases List.mem_cons.mp hp with rfl | hp2
        · rfl
        rcases List.mem_cons.mp hp2 with rfl | hp3
        · rfl
        · cases hp3)
    (by decide)

end Pullpiri
